import Mathlib

/-!
# FLOOF collision response (`Source/Simulate.cpp`)

A shallow embedding of the three resolvers of `FLOOF::Simulate`:

* `Simulate.CalculateCollision`          : ball-ball impulse (lines 8-30),
* `Simulate.BallBallOverlap`             : ball-ball overlap correction (lines 32-44),
* `Simulate.CalculateCollisionTriangle`  : the `(CollisionObject*, Triangle&, TimeComponent&,
  glm::vec3&)` overload of `CalculateCollision` (lines 46-75).

The definitions are generic in the scalar type `F` (the C++ `float`), so they run on any
ordered field with a square root supplied by the caller.  The theorems instantiate `F` with
the real numbers and the square root with `Real.sqrt`: every statement below is about exact
real arithmetic, where `x / 0 = 0`; rounding, infinities and NaN are outside the model.

Collaborators whose code is not part of `Simulate.cpp` are parameters of the embedded
functions: the square root behind `glm::length` and `glm::normalize`,
`Physics::GetContactNormal`, `CollisionShape::ClosestPointToPointOnTriangle`,
`Math::GravitationalPull` and the reading of `Timer::GetTime()`.

The C++ functions mutate the objects they are handed; the embedding passes the state
explicitly and returns the objects after the call.  The two objects of a ball-ball call are
taken to be distinct objects.
-/

namespace FLOOF

/-! ## Vectors (`glm::vec3`) -/

/-- The type `glm::vec3`, over the scalar type `F`. -/
@[ext]
structure Vec3 (F : Type) where
  x : F
  y : F
  z : F
deriving DecidableEq, Repr

namespace Vec3

variable {F : Type}

/-- Component-wise `a + b` (also the effect of `a += b`). -/
instance [Add F] : Add (Vec3 F) := ⟨fun a b => ⟨a.x + b.x, a.y + b.y, a.z + b.z⟩⟩

/-- Component-wise `a - b`. -/
instance [Sub F] : Sub (Vec3 F) := ⟨fun a b => ⟨a.x - b.x, a.y - b.y, a.z - b.z⟩⟩

/-- Unary minus `-a`. -/
instance [Neg F] : Neg (Vec3 F) := ⟨fun a => ⟨-a.x, -a.y, -a.z⟩⟩

/-- The product `scalar * v`. -/
instance [Mul F] : HMul F (Vec3 F) (Vec3 F) := ⟨fun s v => ⟨s * v.x, s * v.y, s * v.z⟩⟩

/-- The product `v * scalar`. -/
instance [Mul F] : HMul (Vec3 F) F (Vec3 F) := ⟨fun v s => ⟨v.x * s, v.y * s, v.z * s⟩⟩

/-- The quotient `v / scalar`. -/
instance [Div F] : HDiv (Vec3 F) F (Vec3 F) := ⟨fun v s => ⟨v.x / s, v.y / s, v.z / s⟩⟩

/-- The zero vector. -/
instance [Zero F] : Zero (Vec3 F) := ⟨⟨0, 0, 0⟩⟩

/-- The function `glm::dot(a, b)`: the sum of the component products. -/
def dot [Add F] [Mul F] (a b : Vec3 F) : F :=
  a.x * b.x + a.y * b.y + a.z * b.z

/-- The function `glm::length(v) = sqrt(dot(v, v))`. -/
def length [Add F] [Mul F] (sqrt : F → F) (v : Vec3 F) : F :=
  sqrt (dot v v)

/-- The function `glm::normalize(v) = v * inversesqrt(dot(v, v))`, with
`inversesqrt(s) = 1 / sqrt(s)`. -/
def normalize [Add F] [Mul F] [One F] [Div F] (sqrt : F → F) (v : Vec3 F) : Vec3 F :=
  v * (1 / sqrt (dot v v))

end Vec3

/-! ## Data model -/

/-- The component `TransformComponent`: the resolvers read and write its `Position` only. -/
structure TransformComponent (F : Type) where
  Position : Vec3 F
deriving DecidableEq, Repr

/-- The component `VelocityComponent`. -/
structure VelocityComponent (F : Type) where
  Velocity : Vec3 F
deriving DecidableEq, Repr

/-- The bounding-sphere descriptor `Ball.CollisionSphere`. -/
structure Sphere (F : Type) where
  pos : Vec3 F
  radius : F
deriving DecidableEq, Repr

/-- The component `BallComponent`: physical parameters, bounding sphere and recorded path
(a `std::vector<glm::vec3>`, oldest element first). -/
structure BallComponent (F : Type) where
  Radius : F
  Mass : F
  Elasticity : F
  CollisionSphere : Sphere F
  Path : List (Vec3 F)
deriving DecidableEq, Repr

/-- The aggregate `CollisionObject`. -/
structure CollisionObject (F : Type) where
  Transform : TransformComponent F
  Velocity : VelocityComponent F
  Ball : BallComponent F
deriving DecidableEq, Repr

/-- The collider facet `Triangle` as `Simulate.cpp` uses it: plane anchor `A`, the other two
corners, face normal `N` and `FrictionConstant`. -/
structure Triangle (F : Type) where
  A : Vec3 F
  B : Vec3 F
  C : Vec3 F
  N : Vec3 F
  FrictionConstant : F
deriving DecidableEq, Repr

/-- The component `TimeComponent`. -/
structure TimeComponent (F : Type) where
  LastPoint : F
deriving DecidableEq, Repr

/-- Everything the sphere-triangle resolver may write: the object, the time component and the
friction output parameter. -/
structure SurfaceState (F : Type) where
  obj : CollisionObject F
  time : TimeComponent F
  friction : Vec3 F
deriving DecidableEq, Repr

/-- The class of error the specification asks for when the combined mass is zero. -/
inductive SimulateError where
  | DivideByZero
deriving DecidableEq, Repr

namespace Simulate

open Vec3

variable {F : Type} [LinearOrderedField F]

/-- The ball-ball overload `Simulate::CalculateCollision(obj1, obj2)`, lines 8-30.
Returns the two objects after the call. -/
def CalculateCollision (GetContactNormal : Vec3 F → Vec3 F → Vec3 F)
    (obj1 obj2 : CollisionObject F) : CollisionObject F × CollisionObject F :=
  let contactNormal := GetContactNormal obj1.Transform.Position obj2.Transform.Position
  let combinedMass := obj2.Ball.Mass + obj1.Ball.Mass
  let elasticity := obj2.Ball.Elasticity * obj1.Ball.Elasticity
  let relVelocity := obj2.Velocity.Velocity - obj1.Velocity.Velocity
  let moveangle := dot relVelocity contactNormal
  let j := -(1 + elasticity) * moveangle / (1 / combinedMass)
  let j := if moveangle ≥ 0 then 0 else j
  let vecImpulse := j * contactNormal
  (obj1, { obj2 with
    Velocity := { Velocity := obj2.Velocity.Velocity + vecImpulse / combinedMass } })

/-- The function `Simulate::BallBallOverlap(obj1, obj2)`, lines 32-44.
Returns the two objects after the call. -/
def BallBallOverlap (sqrt : F → F) (GetContactNormal : Vec3 F → Vec3 F → Vec3 F)
    (obj1 obj2 : CollisionObject F) : CollisionObject F × CollisionObject F :=
  let contactNormal := GetContactNormal obj1.Transform.Position obj2.Transform.Position
  let dist := length sqrt (obj1.Transform.Position - obj2.Transform.Position)
  if dist < obj1.Ball.Radius + obj2.Ball.Radius then
    let Position := obj2.Transform.Position
      + contactNormal * ((obj1.Ball.Radius + obj2.Ball.Radius) - dist)
    (obj1, { obj2 with
      Transform := { Position := Position }
      Ball := { obj2.Ball with
        CollisionSphere := { obj2.Ball.CollisionSphere with pos := Position } } })
  else
    (obj1, obj2)

/-- The sphere-triangle overload
`Simulate::CalculateCollision(obj, triangle, time, friction)`, lines 46-75.
`GetTime` is what `Timer::GetTime()` returns during this call.  The triangle is not written
to; the result holds the object, the time component and the friction output parameter after
the call. -/
def CalculateCollisionTriangle (sqrt : F → F)
    (ClosestPointToPointOnTriangle : Vec3 F → Triangle F → Vec3 F)
    (GravitationalPull : Vec3 F) (GetTime : F)
    (triangle : Triangle F) (s : SurfaceState F) : SurfaceState F :=
  let _acc : Vec3 F := GravitationalPull
  let transform := s.obj.Transform
  let velocity := s.obj.Velocity
  let ball := s.obj.Ball
  -- first touch: stamp the time and seed the path
  let time : TimeComponent F := if ball.Path.isEmpty then { LastPoint := GetTime } else s.time
  let Path := if ball.Path.isEmpty then ball.Path ++ [transform.Position] else ball.Path
  let norm := normalize sqrt
    (ClosestPointToPointOnTriangle transform.Position triangle - transform.Position)
  let moveangle := dot velocity.Velocity norm
  let j := -(1 + ball.Elasticity) * moveangle / (1 / ball.Mass)
  let vecImpulse := j * norm
  let Velocity := velocity.Velocity + vecImpulse / ball.Mass
  -- Add friction
  let friction :=
    if length sqrt Velocity > 0 then
      -normalize sqrt Velocity * (triangle.FrictionConstant * ball.Mass)
    else s.friction
  let dist := dot (transform.Position - triangle.A) triangle.N
  let Position := transform.Position + normalize sqrt triangle.N * (-dist + ball.Radius)
  { obj :=
      { Transform := { Position := Position }
        Velocity := { Velocity := Velocity }
        Ball := { ball with
          Path := Path
          CollisionSphere := { ball.CollisionSphere with pos := Position } } }
    time := time
    friction := friction }

/-- A sequence of sphere-triangle calls on one body, oldest first: each call brings its own
triangle and clock reading. -/
def runSurfaceCalls (sqrt : F → F)
    (ClosestPointToPointOnTriangle : Vec3 F → Triangle F → Vec3 F)
    (GravitationalPull : Vec3 F) :
    List (Triangle F × F) → SurfaceState F → SurfaceState F
  | [], s => s
  | (triangle, GetTime) :: calls, s =>
      runSurfaceCalls sqrt ClosestPointToPointOnTriangle GravitationalPull calls
        (CalculateCollisionTriangle sqrt ClosestPointToPointOnTriangle GravitationalPull
          GetTime triangle s)

/-- How a ball-ball `CalculateCollision(obj1, obj2)` call ends.  Lines 8-30 hold no `throw`, no
assertion and no test of `combinedMass`, and a `float` division does not trap, so the call
always runs to line 29 and completes with the two objects; no path ends in an error. -/
def CalculateCollisionOutcome (GetContactNormal : Vec3 F → Vec3 F → Vec3 F)
    (obj1 obj2 : CollisionObject F) :
    Except SimulateError (CollisionObject F × CollisionObject F) :=
  Except.ok (CalculateCollision GetContactNormal obj1 obj2)

/-- A caller that invokes the ball-ball resolver twice with swapped arguments:
`CalculateCollision(A, B)` and then `CalculateCollision(B, A)` on the objects the first call
left.  Returns A and B after both calls. -/
def CalculateCollisionSwapped (GetContactNormal : Vec3 F → Vec3 F → Vec3 F)
    (A B : CollisionObject F) : CollisionObject F × CollisionObject F :=
  let first := CalculateCollision GetContactNormal A B
  let second := CalculateCollision GetContactNormal first.2 first.1
  (second.2, second.1)

end Simulate

/-! ## Worked example of the specification

Sphere A: mass 1, elasticity 1, radius 1 at the origin with velocity (1,0,0); sphere B: mass 1,
elasticity 1, radius 1 at (1.5,0,0), at rest. -/

/-- A ball with the given position, velocity, radius, mass and elasticity, its bounding sphere
in sync and its path empty. -/
def mkBall {F : Type} (pos vel : Vec3 F) (radius mass elasticity : F) : CollisionObject F :=
  { Transform := { Position := pos }
    Velocity := { Velocity := vel }
    Ball := { Radius := radius, Mass := mass, Elasticity := elasticity
              CollisionSphere := { pos := pos, radius := radius }
              Path := [] } }

/-- Sphere A of the example scenario. -/
def exampleA (F : Type) [LinearOrderedField F] : CollisionObject F :=
  mkBall ⟨0, 0, 0⟩ ⟨1, 0, 0⟩ 1 1 1

/-- Sphere B of the example scenario. -/
def exampleB (F : Type) [LinearOrderedField F] : CollisionObject F :=
  mkBall ⟨3 / 2, 0, 0⟩ ⟨0, 0, 0⟩ 1 1 1

/-- Sphere B of the example scenario, but moving away from A with velocity (2,0,0). -/
def exampleBAway (F : Type) [LinearOrderedField F] : CollisionObject F :=
  mkBall ⟨3 / 2, 0, 0⟩ ⟨2, 0, 0⟩ 1 1 1

/-- Sphere B of the example scenario, but of radius 1/4, so that it does not touch A. -/
def exampleBSmall (F : Type) [LinearOrderedField F] : CollisionObject F :=
  mkBall ⟨3 / 2, 0, 0⟩ ⟨0, 0, 0⟩ (1 / 4) 1 1

/-- Sphere A of the example scenario, but with mass 0. -/
def exampleAMassless (F : Type) [LinearOrderedField F] : CollisionObject F :=
  mkBall ⟨0, 0, 0⟩ ⟨1, 0, 0⟩ 1 0 1

/-- Sphere B of the example scenario, but with mass 0. -/
def exampleBMassless (F : Type) [LinearOrderedField F] : CollisionObject F :=
  mkBall ⟨3 / 2, 0, 0⟩ ⟨0, 0, 0⟩ 1 0 1

/-- The contact normal of the A-to-B convention: `normalize(pos2 - pos1)`. -/
def normalFromTo {F : Type} [LinearOrderedField F] (sqrt : F → F) (pos1 pos2 : Vec3 F) : Vec3 F :=
  Vec3.normalize sqrt (pos2 - pos1)

/-- A facet in the plane `z = 0` whose face normal `(0,0,2)` is the cross product of its
edges `B - A` and `C - A`, not scaled to unit length. -/
def exampleTriangle (F : Type) [LinearOrderedField F] : Triangle F :=
  { A := ⟨0, 0, 0⟩, B := ⟨2, 0, 0⟩, C := ⟨0, 1, 0⟩, N := ⟨0, 0, 2⟩, FrictionConstant := 1 / 2 }

/-- A ball of radius 1 and mass 1 whose centre is at height 1 above the plane `z = 0`, falling
with velocity `(0,0,-1)`; its path is empty, the friction output holds `(7,7,7)`. -/
def exampleSurfaceState (F : Type) [LinearOrderedField F] : SurfaceState F :=
  { obj := mkBall ⟨0, 0, 1⟩ ⟨0, 0, -1⟩ 1 1 1
    time := { LastPoint := 0 }
    friction := ⟨7, 7, 7⟩ }

/-- The ball of `exampleSurfaceState`, but rising with velocity `(0,0,1)`: it moves away from
the facet below it. -/
def exampleSurfaceStateRising (F : Type) [LinearOrderedField F] : SurfaceState F :=
  { obj := mkBall ⟨0, 0, 1⟩ ⟨0, 0, 1⟩ 1 1 1
    time := { LastPoint := 0 }
    friction := ⟨7, 7, 7⟩ }

/-- The ball of `exampleSurfaceState`, but at rest. -/
def exampleSurfaceStateAtRest (F : Type) [LinearOrderedField F] : SurfaceState F :=
  { obj := mkBall ⟨0, 0, 1⟩ ⟨0, 0, 0⟩ 1 1 1
    time := { LastPoint := 0 }
    friction := ⟨7, 7, 7⟩ }

/-- The ball of `exampleSurfaceState` after an earlier surface evaluation: its path holds the
position `(0,0,2)` recorded at time 3. -/
def exampleSurfaceStateTouched (F : Type) [LinearOrderedField F] : SurfaceState F :=
  { obj :=
      { Transform := { Position := ⟨0, 0, 1⟩ }
        Velocity := { Velocity := ⟨0, 0, -1⟩ }
        Ball := { Radius := 1, Mass := 1, Elasticity := 1
                  CollisionSphere := { pos := ⟨0, 0, 1⟩, radius := 1 }
                  Path := [⟨0, 0, 2⟩] } }
    time := { LastPoint := 3 }
    friction := ⟨7, 7, 7⟩ }

/-- The foot of the perpendicular from `p` to the plane `z = 0`; for the ball of
`exampleSurfaceState` it is the corner `A` of `exampleTriangle`, the point of the facet closest
to the ball. -/
def planeFoot {F : Type} [LinearOrderedField F] (p : Vec3 F) (_triangle : Triangle F) : Vec3 F :=
  ⟨p.x, p.y, 0⟩

/-! ## Vector algebra over the reals -/

namespace Vec3

section Components

variable {F : Type}

@[simp] theorem add_x [Add F] (a b : Vec3 F) : (a + b).x = a.x + b.x := rfl
@[simp] theorem add_y [Add F] (a b : Vec3 F) : (a + b).y = a.y + b.y := rfl
@[simp] theorem add_z [Add F] (a b : Vec3 F) : (a + b).z = a.z + b.z := rfl
@[simp] theorem sub_x [Sub F] (a b : Vec3 F) : (a - b).x = a.x - b.x := rfl
@[simp] theorem sub_y [Sub F] (a b : Vec3 F) : (a - b).y = a.y - b.y := rfl
@[simp] theorem sub_z [Sub F] (a b : Vec3 F) : (a - b).z = a.z - b.z := rfl
@[simp] theorem neg_x [Neg F] (a : Vec3 F) : (-a).x = -a.x := rfl
@[simp] theorem neg_y [Neg F] (a : Vec3 F) : (-a).y = -a.y := rfl
@[simp] theorem neg_z [Neg F] (a : Vec3 F) : (-a).z = -a.z := rfl
@[simp] theorem smul_x [Mul F] (s : F) (a : Vec3 F) : (s * a).x = s * a.x := rfl
@[simp] theorem smul_y [Mul F] (s : F) (a : Vec3 F) : (s * a).y = s * a.y := rfl
@[simp] theorem smul_z [Mul F] (s : F) (a : Vec3 F) : (s * a).z = s * a.z := rfl
@[simp] theorem mul_x [Mul F] (a : Vec3 F) (s : F) : (a * s).x = a.x * s := rfl
@[simp] theorem mul_y [Mul F] (a : Vec3 F) (s : F) : (a * s).y = a.y * s := rfl
@[simp] theorem mul_z [Mul F] (a : Vec3 F) (s : F) : (a * s).z = a.z * s := rfl
@[simp] theorem div_x [Div F] (a : Vec3 F) (s : F) : (a / s).x = a.x / s := rfl
@[simp] theorem div_y [Div F] (a : Vec3 F) (s : F) : (a / s).y = a.y / s := rfl
@[simp] theorem div_z [Div F] (a : Vec3 F) (s : F) : (a / s).z = a.z / s := rfl
@[simp] theorem zero_x [Zero F] : (0 : Vec3 F).x = 0 := rfl
@[simp] theorem zero_y [Zero F] : (0 : Vec3 F).y = 0 := rfl
@[simp] theorem zero_z [Zero F] : (0 : Vec3 F).z = 0 := rfl

end Components

theorem dot_self_nonneg (v : Vec3 ℝ) : 0 ≤ dot v v := by
  unfold dot
  nlinarith [mul_self_nonneg v.x, mul_self_nonneg v.y, mul_self_nonneg v.z]

theorem dot_self_eq_zero {v : Vec3 ℝ} (h : dot v v = 0) : v = 0 := by
  unfold dot at h
  have hx : v.x = 0 := by nlinarith [mul_self_nonneg v.x, mul_self_nonneg v.y, mul_self_nonneg v.z]
  have hy : v.y = 0 := by nlinarith [mul_self_nonneg v.x, mul_self_nonneg v.y, mul_self_nonneg v.z]
  have hz : v.z = 0 := by nlinarith [mul_self_nonneg v.x, mul_self_nonneg v.y, mul_self_nonneg v.z]
  ext <;> simp [hx, hy, hz]

theorem dot_self_pos {v : Vec3 ℝ} (h : v ≠ 0) : 0 < dot v v :=
  lt_of_le_of_ne (dot_self_nonneg v) (fun h0 => h (dot_self_eq_zero h0.symm))

theorem length_pos {v : Vec3 ℝ} (h : v ≠ 0) : 0 < length Real.sqrt v :=
  Real.sqrt_pos.mpr (dot_self_pos h)

theorem length_mul_self (v : Vec3 ℝ) : length Real.sqrt v * length Real.sqrt v = dot v v :=
  Real.mul_self_sqrt (dot_self_nonneg v)

theorem dot_sub_comm (a b : Vec3 ℝ) : dot (a - b) (a - b) = dot (b - a) (b - a) := by
  simp only [dot, sub_x, sub_y, sub_z]
  ring

theorem sub_ne_zero_of_ne {a b : Vec3 ℝ} (h : a ≠ b) : b - a ≠ 0 := by
  intro h0
  apply h
  have hx := congrArg Vec3.x h0
  have hy := congrArg Vec3.y h0
  have hz := congrArg Vec3.z h0
  simp only [sub_x, sub_y, sub_z, zero_x, zero_y, zero_z] at hx hy hz
  ext <;> linarith

end Vec3

/-! ## The overlap corrector -/

namespace Simulate

open Vec3

/-- C1. No penetration after overlap correction: when the centres of A and B are distinct, the
contact normal is the unit vector from A's centre to B's centre and the distance of the centres
is below the sum of the radii, the centres are exactly `radiusA + radiusB` apart after
`BallBallOverlap(A, B)`. -/
theorem BallBallOverlap_no_penetration
    (GetContactNormal : Vec3 ℝ → Vec3 ℝ → Vec3 ℝ) (A B : CollisionObject ℝ)
    (hdistinct : A.Transform.Position ≠ B.Transform.Position)
    (hnormal : GetContactNormal A.Transform.Position B.Transform.Position
      = normalize Real.sqrt (B.Transform.Position - A.Transform.Position))
    (hoverlap : length Real.sqrt (A.Transform.Position - B.Transform.Position)
      < A.Ball.Radius + B.Ball.Radius) :
    length Real.sqrt
        ((BallBallOverlap Real.sqrt GetContactNormal A B).1.Transform.Position
          - (BallBallOverlap Real.sqrt GetContactNormal A B).2.Transform.Position)
      = A.Ball.Radius + B.Ball.Radius := by
  have hd0 := sub_ne_zero_of_ne hdistinct
  have hs : 0 < length Real.sqrt (B.Transform.Position - A.Transform.Position) := length_pos hd0
  have hss := length_mul_self (B.Transform.Position - A.Transform.Position)
  have hlen : length Real.sqrt (A.Transform.Position - B.Transform.Position)
      = length Real.sqrt (B.Transform.Position - A.Transform.Position) := by
    unfold length
    rw [dot_sub_comm]
  rw [hlen] at hoverlap
  have hR : 0 ≤ A.Ball.Radius + B.Ball.Radius := by linarith
  simp only [BallBallOverlap, hnormal, hlen, if_pos hoverlap]
  generalize hsdef : length Real.sqrt (B.Transform.Position - A.Transform.Position) = s at *
  have hs0 : s ≠ 0 := ne_of_gt hs
  have key : dot
      (A.Transform.Position - (B.Transform.Position
        + normalize Real.sqrt (B.Transform.Position - A.Transform.Position)
          * (A.Ball.Radius + B.Ball.Radius - s)))
      (A.Transform.Position - (B.Transform.Position
        + normalize Real.sqrt (B.Transform.Position - A.Transform.Position)
          * (A.Ball.Radius + B.Ball.Radius - s)))
      = (A.Ball.Radius + B.Ball.Radius) * (A.Ball.Radius + B.Ball.Radius) := by
    have hn : Real.sqrt (dot (B.Transform.Position - A.Transform.Position)
        (B.Transform.Position - A.Transform.Position)) = s := hsdef
    simp only [Vec3.normalize, hn]
    simp only [dot, sub_x, sub_y, sub_z, add_x, add_y, add_z, mul_x, mul_y, mul_z] at hss ⊢
    field_simp
    nlinarith [hss]
  unfold length
  rw [key]
  exact Real.sqrt_mul_self hR

/-- The centres of the example spheres are `3/2` apart. -/
theorem example_dist :
    length Real.sqrt ((exampleA ℝ).Transform.Position - (exampleB ℝ).Transform.Position)
      = 3 / 2 := by
  have h : dot ((exampleA ℝ).Transform.Position - (exampleB ℝ).Transform.Position)
      ((exampleA ℝ).Transform.Position - (exampleB ℝ).Transform.Position)
      = (3 / 2 : ℝ) * (3 / 2) := by
    simp only [dot, exampleA, exampleB, mkBall, sub_x, sub_y, sub_z]
    norm_num
  unfold length
  rw [h]
  exact Real.sqrt_mul_self (by norm_num)

/-- The example spheres overlap: `3/2 < 1 + 1`. -/
theorem example_overlap :
    length Real.sqrt ((exampleA ℝ).Transform.Position - (exampleB ℝ).Transform.Position)
      < (exampleA ℝ).Ball.Radius + (exampleB ℝ).Ball.Radius := by
  rw [example_dist]
  simp only [exampleA, exampleB, mkBall]
  norm_num

/-- The contact normal of the example spheres is the x axis. -/
theorem example_normal :
    normalFromTo Real.sqrt (exampleA ℝ).Transform.Position (exampleB ℝ).Transform.Position
      = ⟨1, 0, 0⟩ := by
  have h : dot ((exampleB ℝ).Transform.Position - (exampleA ℝ).Transform.Position)
      ((exampleB ℝ).Transform.Position - (exampleA ℝ).Transform.Position)
      = (3 / 2 : ℝ) * (3 / 2) := by
    simp only [dot, exampleA, exampleB, mkBall, sub_x, sub_y, sub_z]
    norm_num
  unfold normalFromTo Vec3.normalize
  rw [h, Real.sqrt_mul_self (by norm_num)]
  ext <;> simp [exampleA, exampleB, mkBall]

/-- C1, witness: sphere A at the origin and sphere B at (1.5,0,0), both of radius 1, overlap;
the corrector moves B to (2,0,0), which is `1 + 1` away from A. -/
theorem BallBallOverlap_no_penetration_witness :
    (BallBallOverlap Real.sqrt (normalFromTo Real.sqrt) (exampleA ℝ)
        (exampleB ℝ)).2.Transform.Position = ⟨2, 0, 0⟩
    ∧ length Real.sqrt
        ((BallBallOverlap Real.sqrt (normalFromTo Real.sqrt) (exampleA ℝ)
            (exampleB ℝ)).1.Transform.Position
          - (BallBallOverlap Real.sqrt (normalFromTo Real.sqrt) (exampleA ℝ)
            (exampleB ℝ)).2.Transform.Position)
      = (exampleA ℝ).Ball.Radius + (exampleB ℝ).Ball.Radius := by
  have hlt := example_overlap
  have hne : (exampleA ℝ).Transform.Position ≠ (exampleB ℝ).Transform.Position := by
    intro h
    have hx : (0 : ℝ) = 3 / 2 := congrArg Vec3.x h
    norm_num at hx
  refine ⟨?_, BallBallOverlap_no_penetration (normalFromTo Real.sqrt) (exampleA ℝ) (exampleB ℝ)
    hne rfl hlt⟩
  simp only [BallBallOverlap, if_pos hlt, example_normal, example_dist]
  ext <;> simp [exampleA, exampleB, mkBall] <;> norm_num

/-! ## The resting correction of the surface resolver -/

/-- The position the sphere-triangle resolver leaves in the transform (lines 71-72). -/
theorem CalculateCollisionTriangle_position {F : Type} [LinearOrderedField F] (sqrt : F → F)
    (cp : Vec3 F → Triangle F → Vec3 F) (g : Vec3 F) (now : F) (triangle : Triangle F)
    (s : SurfaceState F) :
    (CalculateCollisionTriangle sqrt cp g now triangle s).obj.Transform.Position
      = s.obj.Transform.Position + Vec3.normalize sqrt triangle.N
          * (-(dot (s.obj.Transform.Position - triangle.A) triangle.N) + s.obj.Ball.Radius) :=
  rfl

/-- With a face normal of length 1 the resolver leaves the centre exactly one radius above the
triangle plane. -/
theorem CalculateCollisionTriangle_resting_of_unit
    (cp : Vec3 ℝ → Triangle ℝ → Vec3 ℝ) (g : Vec3 ℝ) (now : ℝ) (triangle : Triangle ℝ)
    (s : SurfaceState ℝ) (hN : length Real.sqrt triangle.N = 1) :
    dot ((CalculateCollisionTriangle Real.sqrt cp g now triangle s).obj.Transform.Position
          - triangle.A) (Vec3.normalize Real.sqrt triangle.N)
      = (CalculateCollisionTriangle Real.sqrt cp g now triangle s).obj.Ball.Radius := by
  have hNN : dot triangle.N triangle.N = 1 := by
    have h := length_mul_self triangle.N
    rw [hN] at h
    linarith
  have hs : Real.sqrt (dot triangle.N triangle.N) = 1 := hN
  rw [CalculateCollisionTriangle_position]
  show _ = s.obj.Ball.Radius
  simp only [Vec3.normalize, hs]
  simp only [dot, sub_x, sub_y, sub_z, add_x, add_y, add_z, mul_x, mul_y, mul_z] at hNN ⊢
  field_simp
  linear_combination (s.obj.Ball.Radius
    - ((s.obj.Transform.Position.x - triangle.A.x) * triangle.N.x
      + (s.obj.Transform.Position.y - triangle.A.y) * triangle.N.y
      + (s.obj.Transform.Position.z - triangle.A.z) * triangle.N.z)) * hNN

/-- C2, at a face normal of length 2: the ball of radius 1 enters with its centre at height 1
above the plane `z = 0` (tangent to it) and leaves with its centre in the plane, at signed
distance 0 along the normalised face normal instead of one radius, whatever the closest-point
query, the gravity constant and the clock return. -/
theorem CalculateCollisionTriangle_resting_nonunit
    (cp : Vec3 ℝ → Triangle ℝ → Vec3 ℝ) (g : Vec3 ℝ) (now : ℝ) :
    (CalculateCollisionTriangle Real.sqrt cp g now (exampleTriangle ℝ)
        (exampleSurfaceState ℝ)).obj.Transform.Position = ⟨0, 0, 0⟩
    ∧ dot ((CalculateCollisionTriangle Real.sqrt cp g now (exampleTriangle ℝ)
          (exampleSurfaceState ℝ)).obj.Transform.Position - (exampleTriangle ℝ).A)
        (Vec3.normalize Real.sqrt (exampleTriangle ℝ).N) = 0
    ∧ (CalculateCollisionTriangle Real.sqrt cp g now (exampleTriangle ℝ)
        (exampleSurfaceState ℝ)).obj.Ball.Radius = 1
    ∧ (exampleTriangle ℝ).N ≠ 0 := by
  have hs : Real.sqrt (dot (exampleTriangle ℝ).N (exampleTriangle ℝ).N) = 2 := by
    have h : dot (exampleTriangle ℝ).N (exampleTriangle ℝ).N = (2 : ℝ) * 2 := by
      simp only [dot, exampleTriangle]
      norm_num
    rw [h]
    exact Real.sqrt_mul_self (by norm_num)
  have hpos : (CalculateCollisionTriangle Real.sqrt cp g now (exampleTriangle ℝ)
      (exampleSurfaceState ℝ)).obj.Transform.Position = ⟨0, 0, 0⟩ := by
    rw [CalculateCollisionTriangle_position]
    simp only [Vec3.normalize, hs]
    ext <;> simp [dot, exampleTriangle, exampleSurfaceState, mkBall]
    norm_num
  refine ⟨hpos, ?_, rfl, ?_⟩
  · rw [hpos]
    simp [dot, exampleTriangle]
  · intro h
    have hz : (2 : ℝ) = 0 := congrArg Vec3.z h
    norm_num at hz

/-! ## The ball-ball impulse resolver -/

/-- The velocity the ball-ball resolver leaves in the second object (lines 23-29). -/
theorem CalculateCollision_velocity {F : Type} [LinearOrderedField F]
    (GetContactNormal : Vec3 F → Vec3 F → Vec3 F) (A B : CollisionObject F) :
    (CalculateCollision GetContactNormal A B).2.Velocity.Velocity
      = B.Velocity.Velocity
        + ((if dot (B.Velocity.Velocity - A.Velocity.Velocity)
              (GetContactNormal A.Transform.Position B.Transform.Position) ≥ 0 then 0
            else -(1 + B.Ball.Elasticity * A.Ball.Elasticity)
              * dot (B.Velocity.Velocity - A.Velocity.Velocity)
                  (GetContactNormal A.Transform.Position B.Transform.Position)
              / (1 / (B.Ball.Mass + A.Ball.Mass)))
            * GetContactNormal A.Transform.Position B.Transform.Position)
          / (B.Ball.Mass + A.Ball.Mass) :=
  rfl

/-- C3. Separating pairs are untouched: when the closing speed `dot(velocityB - velocityA, n)`
is non-negative, the ball-ball `CalculateCollision(A, B)` leaves the velocity of A and the
velocity of B as they were. -/
theorem CalculateCollision_separating_untouched
    (GetContactNormal : Vec3 ℝ → Vec3 ℝ → Vec3 ℝ) (A B : CollisionObject ℝ)
    (hsep : dot (B.Velocity.Velocity - A.Velocity.Velocity)
      (GetContactNormal A.Transform.Position B.Transform.Position) ≥ 0) :
    (CalculateCollision GetContactNormal A B).1.Velocity = A.Velocity
    ∧ (CalculateCollision GetContactNormal A B).2.Velocity = B.Velocity := by
  refine ⟨rfl, ?_⟩
  have h := CalculateCollision_velocity GetContactNormal A B
  rw [if_pos hsep] at h
  have hv : (CalculateCollision GetContactNormal A B).2.Velocity.Velocity
      = B.Velocity.Velocity := by
    rw [h]
    ext <;> simp
  cases hB : (CalculateCollision GetContactNormal A B).2.Velocity with
  | mk v =>
    rw [hB] at hv
    cases hBv : B.Velocity with
    | mk w =>
      rw [hBv] at hv
      simp only at hv
      rw [hv]

/-- C3, witness: A at the origin with velocity (1,0,0) and B at (1.5,0,0) running away with
velocity (2,0,0): the closing speed is 1 and both velocities stay. -/
theorem CalculateCollision_separating_untouched_witness :
    (CalculateCollision (normalFromTo Real.sqrt) (exampleA ℝ) (exampleBAway ℝ)).1.Velocity
      = (exampleA ℝ).Velocity
    ∧ (CalculateCollision (normalFromTo Real.sqrt) (exampleA ℝ) (exampleBAway ℝ)).2.Velocity
      = (exampleBAway ℝ).Velocity :=
  CalculateCollision_separating_untouched (normalFromTo Real.sqrt) (exampleA ℝ) (exampleBAway ℝ)
    (by
      have hn : normalFromTo Real.sqrt (exampleA ℝ).Transform.Position
          (exampleBAway ℝ).Transform.Position = ⟨1, 0, 0⟩ := example_normal
      rw [hn]
      simp only [dot, exampleA, exampleBAway, mkBall, sub_x, sub_y, sub_z]
      norm_num)

/-- The velocity of the second object after the ball-ball resolver ran on an approaching pair
whose masses do not add up to zero. -/
theorem CalculateCollision_velocity_of_approaching
    (GetContactNormal : Vec3 ℝ → Vec3 ℝ → Vec3 ℝ) (A B : CollisionObject ℝ)
    (hmass : A.Ball.Mass + B.Ball.Mass ≠ 0)
    (happroach : dot (B.Velocity.Velocity - A.Velocity.Velocity)
      (GetContactNormal A.Transform.Position B.Transform.Position) < 0) :
    (CalculateCollision GetContactNormal A B).2.Velocity.Velocity
      = B.Velocity.Velocity
        - ((1 + A.Ball.Elasticity * B.Ball.Elasticity)
            * dot (B.Velocity.Velocity - A.Velocity.Velocity)
                (GetContactNormal A.Transform.Position B.Transform.Position))
          * GetContactNormal A.Transform.Position B.Transform.Position := by
  have hm : B.Ball.Mass + A.Ball.Mass ≠ 0 := by rwa [add_comm]
  rw [CalculateCollision_velocity, if_neg (not_le.mpr happroach)]
  ext <;> simp only [add_x, add_y, add_z, sub_x, sub_y, sub_z, div_x, div_y, div_z,
    smul_x, smul_y, smul_z] <;> field_simp <;> ring

/-- C4. Impulse formula for an approaching pair: when `massA + massB` is not zero and the
closing speed `dot(velocityB - velocityA, n)` is negative, the ball-ball `CalculateCollision`
leaves `velocityB + (j * n) / (massA + massB)` in B, where
`j = -(1 + elasticityA * elasticityB) * closingSpeed * (massA + massB)`; this is
`velocityB - (1 + elasticityA * elasticityB) * closingSpeed * n`, and replacing the two masses
by any other masses with a non-zero sum gives the same velocity. -/
theorem CalculateCollision_impulse_formula
    (GetContactNormal : Vec3 ℝ → Vec3 ℝ → Vec3 ℝ) (A B : CollisionObject ℝ)
    (hmass : A.Ball.Mass + B.Ball.Mass ≠ 0)
    (happroach : dot (B.Velocity.Velocity - A.Velocity.Velocity)
      (GetContactNormal A.Transform.Position B.Transform.Position) < 0) :
    (CalculateCollision GetContactNormal A B).2.Velocity.Velocity
      = B.Velocity.Velocity
        + ((-(1 + A.Ball.Elasticity * B.Ball.Elasticity)
              * dot (B.Velocity.Velocity - A.Velocity.Velocity)
                  (GetContactNormal A.Transform.Position B.Transform.Position)
              * (A.Ball.Mass + B.Ball.Mass))
            * GetContactNormal A.Transform.Position B.Transform.Position)
          / (A.Ball.Mass + B.Ball.Mass)
    ∧ (CalculateCollision GetContactNormal A B).2.Velocity.Velocity
      = B.Velocity.Velocity
        - ((1 + A.Ball.Elasticity * B.Ball.Elasticity)
            * dot (B.Velocity.Velocity - A.Velocity.Velocity)
                (GetContactNormal A.Transform.Position B.Transform.Position))
          * GetContactNormal A.Transform.Position B.Transform.Position
    ∧ ∀ massA massB : ℝ, massA + massB ≠ 0 →
        (CalculateCollision GetContactNormal
            { A with Ball := { A.Ball with Mass := massA } }
            { B with Ball := { B.Ball with Mass := massB } }).2.Velocity.Velocity
          = (CalculateCollision GetContactNormal A B).2.Velocity.Velocity := by
  have h := CalculateCollision_velocity_of_approaching GetContactNormal A B hmass happroach
  refine ⟨?_, h, ?_⟩
  · rw [h]
    ext <;> simp only [add_x, add_y, add_z, sub_x, sub_y, sub_z, div_x, div_y, div_z,
      smul_x, smul_y, smul_z] <;> field_simp <;> ring
  · intro massA massB hne
    rw [h]
    exact CalculateCollision_velocity_of_approaching GetContactNormal
      { A with Ball := { A.Ball with Mass := massA } }
      { B with Ball := { B.Ball with Mass := massB } } hne happroach

/-- The example spheres approach each other: their closing speed is -1. -/
theorem example_closingSpeed :
    dot ((exampleB ℝ).Velocity.Velocity - (exampleA ℝ).Velocity.Velocity)
      (normalFromTo Real.sqrt (exampleA ℝ).Transform.Position (exampleB ℝ).Transform.Position)
      = -1 := by
  rw [example_normal]
  simp only [dot, exampleA, exampleB, mkBall, sub_x, sub_y, sub_z]
  norm_num

/-- C4, witness: the example spheres have masses 1 + 1 and closing speed -1; B leaves with the
velocity given by the formula. -/
theorem CalculateCollision_impulse_formula_witness :
    (CalculateCollision (normalFromTo Real.sqrt) (exampleA ℝ) (exampleB ℝ)).2.Velocity.Velocity
      = (exampleB ℝ).Velocity.Velocity
        - ((1 + (exampleA ℝ).Ball.Elasticity * (exampleB ℝ).Ball.Elasticity)
            * dot ((exampleB ℝ).Velocity.Velocity - (exampleA ℝ).Velocity.Velocity)
                (normalFromTo Real.sqrt (exampleA ℝ).Transform.Position
                  (exampleB ℝ).Transform.Position))
          * normalFromTo Real.sqrt (exampleA ℝ).Transform.Position
              (exampleB ℝ).Transform.Position :=
  (CalculateCollision_impulse_formula (normalFromTo Real.sqrt) (exampleA ℝ) (exampleB ℝ)
    (by simp only [exampleA, exampleB, mkBall]; norm_num)
    (by rw [example_closingSpeed]; norm_num)).2.1

/-- C5. Momentum-direction sanity: for an approaching pair with equal positive masses, both
elasticities 1 and a contact normal of length 1, the relative velocity along the normal has the
same magnitude after the ball-ball `CalculateCollision` as before it. -/
theorem CalculateCollision_elastic_magnitude
    (GetContactNormal : Vec3 ℝ → Vec3 ℝ → Vec3 ℝ) (A B : CollisionObject ℝ)
    (happroach : dot (B.Velocity.Velocity - A.Velocity.Velocity)
      (GetContactNormal A.Transform.Position B.Transform.Position) < 0)
    (hequal : A.Ball.Mass = B.Ball.Mass) (hpos : 0 < A.Ball.Mass)
    (helA : A.Ball.Elasticity = 1) (helB : B.Ball.Elasticity = 1)
    (hunit : length Real.sqrt (GetContactNormal A.Transform.Position B.Transform.Position) = 1) :
    |dot ((CalculateCollision GetContactNormal A B).2.Velocity.Velocity
          - (CalculateCollision GetContactNormal A B).1.Velocity.Velocity)
        (GetContactNormal A.Transform.Position B.Transform.Position)|
      = |dot (B.Velocity.Velocity - A.Velocity.Velocity)
          (GetContactNormal A.Transform.Position B.Transform.Position)| := by
  have hmass : A.Ball.Mass + B.Ball.Mass ≠ 0 := by
    rw [← hequal]
    exact ne_of_gt (by linarith)
  have hnn : dot (GetContactNormal A.Transform.Position B.Transform.Position)
      (GetContactNormal A.Transform.Position B.Transform.Position) = 1 := by
    have h := length_mul_self (GetContactNormal A.Transform.Position B.Transform.Position)
    rw [hunit] at h
    linarith
  have hA : (CalculateCollision GetContactNormal A B).1.Velocity.Velocity
      = A.Velocity.Velocity := rfl
  rw [CalculateCollision_velocity_of_approaching GetContactNormal A B hmass happroach, hA,
    helA, helB]
  generalize GetContactNormal A.Transform.Position B.Transform.Position = n at *
  have hflip : dot (B.Velocity.Velocity
        - ((1 + 1 * 1) * dot (B.Velocity.Velocity - A.Velocity.Velocity) n) * n
        - A.Velocity.Velocity) n
      = -dot (B.Velocity.Velocity - A.Velocity.Velocity) n := by
    simp only [dot, sub_x, sub_y, sub_z, smul_x, smul_y, smul_z] at hnn ⊢
    linear_combination (-2 * ((B.Velocity.Velocity.x - A.Velocity.Velocity.x) * n.x
      + (B.Velocity.Velocity.y - A.Velocity.Velocity.y) * n.y
      + (B.Velocity.Velocity.z - A.Velocity.Velocity.z) * n.z)) * hnn
  rw [hflip, abs_neg]

/-- The contact normal of the example spheres has length 1. -/
theorem example_normal_unit :
    length Real.sqrt (normalFromTo Real.sqrt (exampleA ℝ).Transform.Position
      (exampleB ℝ).Transform.Position) = 1 := by
  rw [example_normal]
  simp [length, dot]

/-- C5, witness: the example spheres (masses 1 and 1, elasticities 1 and 1) approach with
closing speed -1 and separate with relative normal speed of magnitude 1. -/
theorem CalculateCollision_elastic_magnitude_witness :
    |dot ((CalculateCollision (normalFromTo Real.sqrt) (exampleA ℝ)
            (exampleB ℝ)).2.Velocity.Velocity
          - (CalculateCollision (normalFromTo Real.sqrt) (exampleA ℝ)
            (exampleB ℝ)).1.Velocity.Velocity)
        (normalFromTo Real.sqrt (exampleA ℝ).Transform.Position
          (exampleB ℝ).Transform.Position)|
      = |dot ((exampleB ℝ).Velocity.Velocity - (exampleA ℝ).Velocity.Velocity)
          (normalFromTo Real.sqrt (exampleA ℝ).Transform.Position
            (exampleB ℝ).Transform.Position)| :=
  CalculateCollision_elastic_magnitude (normalFromTo Real.sqrt) (exampleA ℝ) (exampleB ℝ)
    (by rw [example_closingSpeed]; norm_num) rfl
    (by simp only [exampleA, mkBall]; norm_num) rfl rfl example_normal_unit

/-! ## Frame conditions of the ball-ball functions -/

/-- C6. Frame of the impulse resolver: the ball-ball `CalculateCollision(A, B)` returns A as
it was (transform, velocity and ball) and leaves the transform of B and the ball of B
(parameters, bounding sphere and path) as they were; only the velocity of B can differ. -/
theorem CalculateCollision_frame {F : Type} [LinearOrderedField F]
    (GetContactNormal : Vec3 F → Vec3 F → Vec3 F) (A B : CollisionObject F) :
    (CalculateCollision GetContactNormal A B).1 = A
    ∧ (CalculateCollision GetContactNormal A B).2.Transform = B.Transform
    ∧ (CalculateCollision GetContactNormal A B).2.Ball = B.Ball :=
  ⟨rfl, rfl, rfl⟩

/-- C7. Frame of the overlap corrector: `BallBallOverlap(A, B)` returns A as it was and leaves
the velocity of B as it was; when the distance of the centres is at least
`radiusA + radiusB`, it returns B as it was too. -/
theorem BallBallOverlap_frame {F : Type} [LinearOrderedField F] (sqrt : F → F)
    (GetContactNormal : Vec3 F → Vec3 F → Vec3 F) (A B : CollisionObject F) :
    (BallBallOverlap sqrt GetContactNormal A B).1 = A
    ∧ (BallBallOverlap sqrt GetContactNormal A B).2.Velocity = B.Velocity
    ∧ (length sqrt (A.Transform.Position - B.Transform.Position)
          ≥ A.Ball.Radius + B.Ball.Radius →
        BallBallOverlap sqrt GetContactNormal A B = (A, B)) := by
  refine ⟨?_, ?_, ?_⟩
  · unfold BallBallOverlap
    simp only
    split <;> rfl
  · unfold BallBallOverlap
    simp only
    split <;> rfl
  · intro h
    unfold BallBallOverlap
    simp only
    rw [if_neg (not_lt.mpr h)]

/-- C7, witness: sphere A of radius 1 at the origin and a sphere of radius 1/4 at (1.5,0,0)
are `3/2 ≥ 1 + 1/4` apart, and the corrector returns both as they were. -/
theorem BallBallOverlap_frame_witness :
    length Real.sqrt ((exampleA ℝ).Transform.Position - (exampleBSmall ℝ).Transform.Position)
        ≥ (exampleA ℝ).Ball.Radius + (exampleBSmall ℝ).Ball.Radius
    ∧ BallBallOverlap Real.sqrt (normalFromTo Real.sqrt) (exampleA ℝ) (exampleBSmall ℝ)
        = (exampleA ℝ, exampleBSmall ℝ) := by
  have h : length Real.sqrt
      ((exampleA ℝ).Transform.Position - (exampleBSmall ℝ).Transform.Position)
      ≥ (exampleA ℝ).Ball.Radius + (exampleBSmall ℝ).Ball.Radius := by
    have hd : length Real.sqrt
        ((exampleA ℝ).Transform.Position - (exampleBSmall ℝ).Transform.Position) = 3 / 2 :=
      example_dist
    rw [hd]
    simp only [exampleA, exampleBSmall, mkBall]
    norm_num
  exact ⟨h, (BallBallOverlap_frame Real.sqrt (normalFromTo Real.sqrt) (exampleA ℝ)
    (exampleBSmall ℝ)).2.2 h⟩

/-! ## Friction output of the surface resolver -/

/-- The friction output of the sphere-triangle resolver in terms of the velocity it leaves in
the object (lines 66-69). -/
theorem CalculateCollisionTriangle_friction {F : Type} [LinearOrderedField F] (sqrt : F → F)
    (cp : Vec3 F → Triangle F → Vec3 F) (g : Vec3 F) (now : F) (triangle : Triangle F)
    (s : SurfaceState F) :
    (CalculateCollisionTriangle sqrt cp g now triangle s).friction
      = if length sqrt (CalculateCollisionTriangle sqrt cp g now triangle s).obj.Velocity.Velocity
            > 0 then
          -Vec3.normalize sqrt
              (CalculateCollisionTriangle sqrt cp g now triangle s).obj.Velocity.Velocity
            * (triangle.FrictionConstant * s.obj.Ball.Mass)
        else s.friction :=
  rfl

/-- A non-zero vector scaled by `-normalize(v) * k` with `k ≥ 0` is anti-parallel to `v` and
has length `k`. -/
theorem neg_normalize_mul (v : Vec3 ℝ) (k : ℝ) (hv : v ≠ 0) (hk : 0 ≤ k) :
    (∃ c : ℝ, 0 ≤ c ∧ -Vec3.normalize Real.sqrt v * k = -(c * v))
    ∧ length Real.sqrt (-Vec3.normalize Real.sqrt v * k) = k := by
  have hL : 0 < Real.sqrt (dot v v) := length_pos hv
  have hLL : Real.sqrt (dot v v) * Real.sqrt (dot v v) = dot v v := length_mul_self v
  have hdot : dot (-(v * (1 / Real.sqrt (dot v v))) * k) (-(v * (1 / Real.sqrt (dot v v))) * k)
      = k * k := by
    generalize Real.sqrt (dot v v) = L at hL hLL
    have hL0 : L ≠ 0 := ne_of_gt hL
    simp only [dot, neg_x, neg_y, neg_z, mul_x, mul_y, mul_z] at hLL ⊢
    field_simp
    linear_combination (-(k * k)) * hLL
  constructor
  · refine ⟨k / Real.sqrt (dot v v), div_nonneg hk (le_of_lt hL), ?_⟩
    simp only [Vec3.normalize]
    ext <;> simp only [neg_x, neg_y, neg_z, mul_x, mul_y, mul_z, smul_x, smul_y, smul_z]
      <;> ring
  · simp only [Vec3.normalize, length]
    rw [hdot]
    exact Real.sqrt_mul_self hk

/-- C8. Friction direction and magnitude: when the mass is positive, the friction constant of
the triangle is non-negative and the velocity the sphere-triangle `CalculateCollision` leaves
in the object is not zero, the friction vector written to the output parameter is `-c` times
that velocity for some `c ≥ 0` and has length `FrictionConstant * mass`. -/
theorem CalculateCollisionTriangle_friction_antiparallel
    (cp : Vec3 ℝ → Triangle ℝ → Vec3 ℝ) (g : Vec3 ℝ) (now : ℝ) (triangle : Triangle ℝ)
    (s : SurfaceState ℝ) (hmass : 0 < s.obj.Ball.Mass) (hfric : 0 ≤ triangle.FrictionConstant)
    (hmoving : (CalculateCollisionTriangle Real.sqrt cp g now triangle s).obj.Velocity.Velocity
      ≠ 0) :
    (∃ c : ℝ, 0 ≤ c
      ∧ (CalculateCollisionTriangle Real.sqrt cp g now triangle s).friction
        = -(c * (CalculateCollisionTriangle Real.sqrt cp g now triangle s).obj.Velocity.Velocity))
    ∧ length Real.sqrt (CalculateCollisionTriangle Real.sqrt cp g now triangle s).friction
      = triangle.FrictionConstant * s.obj.Ball.Mass := by
  rw [CalculateCollisionTriangle_friction, if_pos (length_pos hmoving)]
  exact neg_normalize_mul _ _ hmoving (mul_nonneg hfric (le_of_lt hmass))

/-- The velocity the sphere-triangle resolver leaves in the object (lines 58-63). -/
theorem CalculateCollisionTriangle_velocity {F : Type} [LinearOrderedField F] (sqrt : F → F)
    (cp : Vec3 F → Triangle F → Vec3 F) (g : Vec3 F) (now : F) (triangle : Triangle F)
    (s : SurfaceState F) :
    (CalculateCollisionTriangle sqrt cp g now triangle s).obj.Velocity.Velocity
      = s.obj.Velocity.Velocity
        + ((-(1 + s.obj.Ball.Elasticity)
              * dot s.obj.Velocity.Velocity
                  (Vec3.normalize sqrt
                    (cp s.obj.Transform.Position triangle - s.obj.Transform.Position))
              / (1 / s.obj.Ball.Mass))
            * Vec3.normalize sqrt
                (cp s.obj.Transform.Position triangle - s.obj.Transform.Position))
          / s.obj.Ball.Mass :=
  rfl

/-- The example ball falls with velocity (0,0,-1) and leaves the surface resolver with
velocity (0,0,1). -/
theorem example_bounce (g : Vec3 ℝ) (now : ℝ) :
    (CalculateCollisionTriangle Real.sqrt planeFoot g now (exampleTriangle ℝ)
        (exampleSurfaceState ℝ)).obj.Velocity.Velocity = ⟨0, 0, 1⟩ := by
  have hn : Vec3.normalize Real.sqrt
      (planeFoot (exampleSurfaceState ℝ).obj.Transform.Position (exampleTriangle ℝ)
        - (exampleSurfaceState ℝ).obj.Transform.Position) = ⟨0, 0, -1⟩ := by
    have h : dot (planeFoot (exampleSurfaceState ℝ).obj.Transform.Position (exampleTriangle ℝ)
          - (exampleSurfaceState ℝ).obj.Transform.Position)
        (planeFoot (exampleSurfaceState ℝ).obj.Transform.Position (exampleTriangle ℝ)
          - (exampleSurfaceState ℝ).obj.Transform.Position) = 1 := by
      simp [dot, planeFoot, exampleSurfaceState, mkBall]
    unfold Vec3.normalize
    rw [h, Real.sqrt_one]
    ext <;> simp [planeFoot, exampleSurfaceState, mkBall]
  rw [CalculateCollisionTriangle_velocity, hn]
  ext <;> simp [dot, exampleSurfaceState, mkBall]

/-- C8, witness: the example ball (mass 1) bounces off the example facet (friction constant
1/2) with velocity (0,0,1); the friction output is anti-parallel to it and has length
`1/2 * 1`. -/
theorem CalculateCollisionTriangle_friction_antiparallel_witness :
    (∃ c : ℝ, 0 ≤ c
      ∧ (CalculateCollisionTriangle Real.sqrt planeFoot 0 5 (exampleTriangle ℝ)
          (exampleSurfaceState ℝ)).friction
        = -(c * (CalculateCollisionTriangle Real.sqrt planeFoot 0 5 (exampleTriangle ℝ)
          (exampleSurfaceState ℝ)).obj.Velocity.Velocity))
    ∧ length Real.sqrt (CalculateCollisionTriangle Real.sqrt planeFoot 0 5 (exampleTriangle ℝ)
        (exampleSurfaceState ℝ)).friction
      = (exampleTriangle ℝ).FrictionConstant * (exampleSurfaceState ℝ).obj.Ball.Mass :=
  CalculateCollisionTriangle_friction_antiparallel planeFoot 0 5 (exampleTriangle ℝ)
    (exampleSurfaceState ℝ)
    (by simp only [exampleSurfaceState, mkBall]; norm_num)
    (by simp only [exampleTriangle]; norm_num)
    (by
      rw [example_bounce]
      intro h
      have hz : (1 : ℝ) = 0 := congrArg Vec3.z h
      norm_num at hz)

/-! ## Trajectory recording -/

/-- The path the sphere-triangle resolver leaves in the ball (lines 53-56). -/
theorem CalculateCollisionTriangle_path {F : Type} [LinearOrderedField F] (sqrt : F → F)
    (cp : Vec3 F → Triangle F → Vec3 F) (g : Vec3 F) (now : F) (triangle : Triangle F)
    (s : SurfaceState F) :
    (CalculateCollisionTriangle sqrt cp g now triangle s).obj.Ball.Path
      = if s.obj.Ball.Path.isEmpty then s.obj.Ball.Path ++ [s.obj.Transform.Position]
        else s.obj.Ball.Path :=
  rfl

/-- A call on a body whose path is not empty leaves the path as it was. -/
theorem CalculateCollisionTriangle_path_of_ne_nil {F : Type} [LinearOrderedField F]
    (sqrt : F → F) (cp : Vec3 F → Triangle F → Vec3 F) (g : Vec3 F) (now : F)
    (triangle : Triangle F) (s : SurfaceState F) (h : s.obj.Ball.Path ≠ []) :
    (CalculateCollisionTriangle sqrt cp g now triangle s).obj.Ball.Path = s.obj.Ball.Path := by
  rw [CalculateCollisionTriangle_path]
  have he : s.obj.Ball.Path.isEmpty = false := by
    cases hp : s.obj.Ball.Path with
    | nil => exact absurd hp h
    | cons a l => rfl
  rw [he]
  rfl

/-- A call on a body whose path is empty leaves the entry position as the only element. -/
theorem CalculateCollisionTriangle_path_of_nil {F : Type} [LinearOrderedField F]
    (sqrt : F → F) (cp : Vec3 F → Triangle F → Vec3 F) (g : Vec3 F) (now : F)
    (triangle : Triangle F) (s : SurfaceState F) (h : s.obj.Ball.Path = []) :
    (CalculateCollisionTriangle sqrt cp g now triangle s).obj.Ball.Path
      = [s.obj.Transform.Position] := by
  rw [CalculateCollisionTriangle_path, h]
  rfl

/-- Calls on a body whose path is not empty leave the path as it was. -/
theorem runSurfaceCalls_path_of_ne_nil {F : Type} [LinearOrderedField F]
    (sqrt : F → F) (cp : Vec3 F → Triangle F → Vec3 F) (g : Vec3 F)
    (calls : List (Triangle F × F)) (s : SurfaceState F) (h : s.obj.Ball.Path ≠ []) :
    (runSurfaceCalls sqrt cp g calls s).obj.Ball.Path = s.obj.Ball.Path := by
  induction calls generalizing s with
  | nil => rfl
  | cons c calls ih =>
    obtain ⟨triangle, now⟩ := c
    have h1 := CalculateCollisionTriangle_path_of_ne_nil sqrt cp g now triangle s h
    show (runSurfaceCalls sqrt cp g calls
      (CalculateCollisionTriangle sqrt cp g now triangle s)).obj.Ball.Path = _
    rw [ih _ (by rw [h1]; exact h), h1]

/-- One or more calls on a body whose path is empty leave the entry position of the first call
as the only element of the path. -/
theorem runSurfaceCalls_path_of_nil {F : Type} [LinearOrderedField F]
    (sqrt : F → F) (cp : Vec3 F → Triangle F → Vec3 F) (g : Vec3 F)
    (calls : List (Triangle F × F)) (s : SurfaceState F) (h : s.obj.Ball.Path = [])
    (hcalls : calls ≠ []) :
    (runSurfaceCalls sqrt cp g calls s).obj.Ball.Path = [s.obj.Transform.Position] := by
  cases calls with
  | nil => exact absurd rfl hcalls
  | cons c calls =>
    obtain ⟨triangle, now⟩ := c
    have h1 := CalculateCollisionTriangle_path_of_nil sqrt cp g now triangle s h
    show (runSurfaceCalls sqrt cp g calls
      (CalculateCollisionTriangle sqrt cp g now triangle s)).obj.Ball.Path = _
    rw [runSurfaceCalls_path_of_ne_nil sqrt cp g calls _ (by rw [h1]; simp), h1]

/-- C9. Path append-once-then-grow: on a body whose path is empty, after each of the first
`k` calls (`1 ≤ k ≤ N`) of any sequence of `N` sphere-triangle `CalculateCollision` calls the
path is not empty and its first element is the transform position the body had at entry to
the first call; and every single call, from any state, leaves a path that starts with the path
it found (nothing is removed or rewritten). -/
theorem CalculateCollisionTriangle_path_append_once {F : Type} [LinearOrderedField F]
    (sqrt : F → F) (cp : Vec3 F → Triangle F → Vec3 F) (g : Vec3 F)
    (calls : List (Triangle F × F)) (s : SurfaceState F) (hempty : s.obj.Ball.Path = []) :
    (∀ k : Nat, 1 ≤ k → k ≤ calls.length →
      (runSurfaceCalls sqrt cp g (calls.take k) s).obj.Ball.Path ≠ []
      ∧ (runSurfaceCalls sqrt cp g (calls.take k) s).obj.Ball.Path.head?
        = some s.obj.Transform.Position)
    ∧ (∀ (now : F) (triangle : Triangle F) (s1 : SurfaceState F),
      s1.obj.Ball.Path <+: (CalculateCollisionTriangle sqrt cp g now triangle s1).obj.Ball.Path)
    := by
  constructor
  · intro k hk hkN
    have hne : calls.take k ≠ [] := by
      intro h0
      have hlen : (calls.take k).length = k := List.length_take_of_le hkN
      rw [h0] at hlen
      simp at hlen
      omega
    rw [runSurfaceCalls_path_of_nil sqrt cp g (calls.take k) s hempty hne]
    simp
  · intro now triangle s1
    rw [CalculateCollisionTriangle_path]
    split
    · exact List.prefix_append _ _
    · exact List.prefix_refl _

/-- C9, witness: two calls on the example ball, whose path is empty and whose centre is at
(0,0,1) at entry (the first call moves it to the origin): after both calls the path starts
with (0,0,1). -/
theorem CalculateCollisionTriangle_path_append_once_witness :
    (runSurfaceCalls Real.sqrt planeFoot 0
        ([(exampleTriangle ℝ, 5), (exampleTriangle ℝ, 6)].take 2)
        (exampleSurfaceState ℝ)).obj.Ball.Path ≠ []
    ∧ (runSurfaceCalls Real.sqrt planeFoot 0
        ([(exampleTriangle ℝ, 5), (exampleTriangle ℝ, 6)].take 2)
        (exampleSurfaceState ℝ)).obj.Ball.Path.head? = some ⟨0, 0, 1⟩ :=
  (CalculateCollisionTriangle_path_append_once Real.sqrt planeFoot 0
    [(exampleTriangle ℝ, 5), (exampleTriangle ℝ, 6)] (exampleSurfaceState ℝ) rfl).1 2
    (by decide) (by decide)

/-! ## Bounding-sphere synchronisation -/

/-- C10. Bounding-sphere synchronisation: after every sphere-triangle `CalculateCollision`
call the `Ball.CollisionSphere.pos` of the body equals its `Transform.Position`, and after
every `BallBallOverlap(A, B)` call with the centres closer than `radiusA + radiusB` the
`Ball.CollisionSphere.pos` of B equals the `Transform.Position` of B. -/
theorem CollisionSphere_synchronised {F : Type} [LinearOrderedField F] (sqrt : F → F) :
    (∀ (cp : Vec3 F → Triangle F → Vec3 F) (g : Vec3 F) (now : F) (triangle : Triangle F)
        (s : SurfaceState F),
      (CalculateCollisionTriangle sqrt cp g now triangle s).obj.Ball.CollisionSphere.pos
        = (CalculateCollisionTriangle sqrt cp g now triangle s).obj.Transform.Position)
    ∧ (∀ (GetContactNormal : Vec3 F → Vec3 F → Vec3 F) (A B : CollisionObject F),
      length sqrt (A.Transform.Position - B.Transform.Position)
          < A.Ball.Radius + B.Ball.Radius →
        (BallBallOverlap sqrt GetContactNormal A B).2.Ball.CollisionSphere.pos
          = (BallBallOverlap sqrt GetContactNormal A B).2.Transform.Position) := by
  refine ⟨fun _ _ _ _ _ => rfl, ?_⟩
  intro GetContactNormal A B h
  unfold BallBallOverlap
  simp only
  rw [if_pos h]

/-- C10, witness: the example spheres overlap, and the corrector leaves the bounding sphere of
B at the new transform position of B. -/
theorem CollisionSphere_synchronised_witness :
    length Real.sqrt ((exampleA ℝ).Transform.Position - (exampleB ℝ).Transform.Position)
        < (exampleA ℝ).Ball.Radius + (exampleB ℝ).Ball.Radius
    ∧ (BallBallOverlap Real.sqrt (normalFromTo Real.sqrt) (exampleA ℝ)
          (exampleB ℝ)).2.Ball.CollisionSphere.pos
        = (BallBallOverlap Real.sqrt (normalFromTo Real.sqrt) (exampleA ℝ)
          (exampleB ℝ)).2.Transform.Position :=
  ⟨example_overlap, (CollisionSphere_synchronised Real.sqrt).2 (normalFromTo Real.sqrt)
    (exampleA ℝ) (exampleB ℝ) example_overlap⟩

/-! ## Zero combined mass -/

/-- C11, at two massless spheres: the combined mass is zero and the ball-ball
`CalculateCollision` does not end in a divide-by-zero error. -/
theorem CalculateCollision_zero_mass_not_rejected_example :
    (exampleAMassless ℝ).Ball.Mass + (exampleBMassless ℝ).Ball.Mass = 0
    ∧ CalculateCollisionOutcome (normalFromTo Real.sqrt) (exampleAMassless ℝ)
        (exampleBMassless ℝ) ≠ Except.error SimulateError.DivideByZero := by
  constructor
  · simp [exampleAMassless, exampleBMassless, mkBall]
  · intro h
    cases h

/-- C11, amended. The ball-ball `CalculateCollision` rejects no pair, whatever the two masses
add up to (zero included): the call completes, returns A as it was and returns B with some
velocity written and everything else as it was. -/
theorem CalculateCollision_never_rejected {F : Type} [LinearOrderedField F]
    (GetContactNormal : Vec3 F → Vec3 F → Vec3 F) (A B : CollisionObject F) :
    ∃ v : Vec3 F, CalculateCollisionOutcome GetContactNormal A B
      = Except.ok (A, { B with Velocity := { Velocity := v } }) :=
  ⟨(CalculateCollision GetContactNormal A B).2.Velocity.Velocity, rfl⟩

/-! ## The example scenario, velocity part -/

/-- The velocity of B after the ball-ball resolver ran on the example spheres with contact
normal (1,0,0). -/
theorem example_impulse (GetContactNormal : Vec3 ℝ → Vec3 ℝ → Vec3 ℝ)
    (hnormal : GetContactNormal (exampleA ℝ).Transform.Position (exampleB ℝ).Transform.Position
      = ⟨1, 0, 0⟩) :
    (CalculateCollision GetContactNormal (exampleA ℝ) (exampleB ℝ)).2.Velocity.Velocity
      = ⟨2, 0, 0⟩ := by
  have hcs : dot ((exampleB ℝ).Velocity.Velocity - (exampleA ℝ).Velocity.Velocity)
      (GetContactNormal (exampleA ℝ).Transform.Position (exampleB ℝ).Transform.Position)
      = -1 := by
    rw [hnormal]
    simp only [dot, exampleA, exampleB, mkBall, sub_x, sub_y, sub_z]
    norm_num
  rw [CalculateCollision_velocity_of_approaching GetContactNormal (exampleA ℝ) (exampleB ℝ)
    (by simp only [exampleA, exampleB, mkBall]; norm_num) (by rw [hcs]; norm_num), hcs, hnormal]
  ext <;> simp [exampleA, exampleB, mkBall]
  norm_num

/-- C12, as stated, fails: on the example spheres, whose contact normal is (1,0,0), the
ball-ball `CalculateCollision(A, B)` does not leave the velocity (1,0,0) in B. -/
theorem CalculateCollision_example_not_transferred :
    normalFromTo Real.sqrt (exampleA ℝ).Transform.Position (exampleB ℝ).Transform.Position
      = ⟨1, 0, 0⟩
    ∧ (CalculateCollision (normalFromTo Real.sqrt) (exampleA ℝ)
        (exampleB ℝ)).2.Velocity.Velocity ≠ ⟨1, 0, 0⟩ := by
  refine ⟨example_normal, ?_⟩
  rw [example_impulse (normalFromTo Real.sqrt) example_normal]
  intro h
  have hx : (2 : ℝ) = 1 := congrArg Vec3.x h
  norm_num at hx

/-- C12, amended. Example scenario, velocity part: for sphere A (mass 1, elasticity 1,
radius 1, at the origin, velocity (1,0,0)) and sphere B (mass 1, elasticity 1, radius 1, at
(1.5,0,0), at rest) with contact normal (1,0,0), the ball-ball `CalculateCollision(A, B)`
leaves the velocity (1,0,0) in A and the velocity (2,0,0) in B: B gains
`1 + elasticityA * elasticityB = 2` times the closing speed of 1 along the normal. -/
theorem CalculateCollision_example_velocity (GetContactNormal : Vec3 ℝ → Vec3 ℝ → Vec3 ℝ)
    (hnormal : GetContactNormal (exampleA ℝ).Transform.Position (exampleB ℝ).Transform.Position
      = ⟨1, 0, 0⟩) :
    (CalculateCollision GetContactNormal (exampleA ℝ) (exampleB ℝ)).1.Velocity.Velocity
      = ⟨1, 0, 0⟩
    ∧ (CalculateCollision GetContactNormal (exampleA ℝ) (exampleB ℝ)).2.Velocity.Velocity
      = ⟨2, 0, 0⟩ :=
  ⟨rfl, example_impulse GetContactNormal hnormal⟩

/-- C12, witness: the A-to-B unit normal of the example spheres is (1,0,0), and with it B
leaves with velocity (2,0,0). -/
theorem CalculateCollision_example_velocity_witness :
    (CalculateCollision (normalFromTo Real.sqrt) (exampleA ℝ)
        (exampleB ℝ)).1.Velocity.Velocity = ⟨1, 0, 0⟩
    ∧ (CalculateCollision (normalFromTo Real.sqrt) (exampleA ℝ)
        (exampleB ℝ)).2.Velocity.Velocity = ⟨2, 0, 0⟩ :=
  CalculateCollision_example_velocity (normalFromTo Real.sqrt) example_normal

/-! ## The impulse of the surface resolver -/

/-- The velocity the sphere-triangle resolver leaves in a ball whose mass is not zero, with
`n = normalize(closestPoint - position)`: `velocity - (1 + elasticity) * dot(velocity, n) * n`. -/
theorem CalculateCollisionTriangle_velocity_of_mass
    (cp : Vec3 ℝ → Triangle ℝ → Vec3 ℝ) (g : Vec3 ℝ) (now : ℝ) (triangle : Triangle ℝ)
    (s : SurfaceState ℝ) (hmass : s.obj.Ball.Mass ≠ 0) :
    (CalculateCollisionTriangle Real.sqrt cp g now triangle s).obj.Velocity.Velocity
      = s.obj.Velocity.Velocity
        - ((1 + s.obj.Ball.Elasticity)
            * dot s.obj.Velocity.Velocity
                (Vec3.normalize Real.sqrt
                  (cp s.obj.Transform.Position triangle - s.obj.Transform.Position)))
          * Vec3.normalize Real.sqrt
              (cp s.obj.Transform.Position triangle - s.obj.Transform.Position) := by
  rw [CalculateCollisionTriangle_velocity]
  generalize Vec3.normalize Real.sqrt
    (cp s.obj.Transform.Position triangle - s.obj.Transform.Position) = n
  ext <;> simp only [add_x, add_y, add_z, sub_x, sub_y, sub_z, div_x, div_y, div_z,
    smul_x, smul_y, smul_z] <;> field_simp <;> ring

/-- C13. Surface impulse is ungated and friction/gravity-free: for a ball whose mass is not
zero and a contact normal `n = normalize(closestPoint - position)` of length 1, the
sphere-triangle `CalculateCollision` leaves the velocity
`velocity - (1 + elasticity) * dot(velocity, n) * n`, with no condition on the sign of
`dot(velocity, n)`; and the velocity it leaves is the same for every gravitational constant
and every `FrictionConstant` of the triangle (the closest-point query being a query on the
geometry, which returns the same point when only the `FrictionConstant` differs). -/
theorem CalculateCollisionTriangle_impulse_ungated
    (cp : Vec3 ℝ → Triangle ℝ → Vec3 ℝ) (g : Vec3 ℝ) (now : ℝ) (triangle : Triangle ℝ)
    (s : SurfaceState ℝ) (hmass : s.obj.Ball.Mass ≠ 0)
    (_hunit : length Real.sqrt (Vec3.normalize Real.sqrt
      (cp s.obj.Transform.Position triangle - s.obj.Transform.Position)) = 1) :
    (CalculateCollisionTriangle Real.sqrt cp g now triangle s).obj.Velocity.Velocity
      = s.obj.Velocity.Velocity
        - ((1 + s.obj.Ball.Elasticity)
            * dot s.obj.Velocity.Velocity
                (Vec3.normalize Real.sqrt
                  (cp s.obj.Transform.Position triangle - s.obj.Transform.Position)))
          * Vec3.normalize Real.sqrt
              (cp s.obj.Transform.Position triangle - s.obj.Transform.Position)
    ∧ ∀ (gravity : Vec3 ℝ) (frictionConstant : ℝ),
        cp s.obj.Transform.Position { triangle with FrictionConstant := frictionConstant }
            = cp s.obj.Transform.Position triangle →
          (CalculateCollisionTriangle Real.sqrt cp gravity now
              { triangle with FrictionConstant := frictionConstant } s).obj.Velocity.Velocity
            = (CalculateCollisionTriangle Real.sqrt cp g now triangle s).obj.Velocity.Velocity
    := by
  refine ⟨CalculateCollisionTriangle_velocity_of_mass cp g now triangle s hmass, ?_⟩
  intro gravity frictionConstant hcp
  rw [CalculateCollisionTriangle_velocity, CalculateCollisionTriangle_velocity, hcp]

/-- The contact normal of the example ball over the example facet points straight down. -/
theorem example_surface_normal :
    Vec3.normalize Real.sqrt
      (planeFoot (exampleSurfaceState ℝ).obj.Transform.Position (exampleTriangle ℝ)
        - (exampleSurfaceState ℝ).obj.Transform.Position) = ⟨0, 0, -1⟩ := by
  have h : dot (planeFoot (exampleSurfaceState ℝ).obj.Transform.Position (exampleTriangle ℝ)
        - (exampleSurfaceState ℝ).obj.Transform.Position)
      (planeFoot (exampleSurfaceState ℝ).obj.Transform.Position (exampleTriangle ℝ)
        - (exampleSurfaceState ℝ).obj.Transform.Position) = 1 := by
    simp [dot, planeFoot, exampleSurfaceState, mkBall]
  unfold Vec3.normalize
  rw [h, Real.sqrt_one]
  ext <;> simp [planeFoot, exampleSurfaceState, mkBall]

/-- The contact normal of the example ball over the example facet has length 1. -/
theorem example_surface_normal_unit :
    length Real.sqrt (Vec3.normalize Real.sqrt
      (planeFoot (exampleSurfaceState ℝ).obj.Transform.Position (exampleTriangle ℝ)
        - (exampleSurfaceState ℝ).obj.Transform.Position)) = 1 := by
  rw [example_surface_normal]
  simp [length, dot]

/-- C13, witness: the rising example ball moves away from the facet (`dot(velocity, n) = -1`)
and the resolver still applies the impulse: it leaves with velocity (0,0,-1), towards the
facet. -/
theorem CalculateCollisionTriangle_impulse_ungated_witness :
    dot (exampleSurfaceStateRising ℝ).obj.Velocity.Velocity
        (Vec3.normalize Real.sqrt
          (planeFoot (exampleSurfaceStateRising ℝ).obj.Transform.Position (exampleTriangle ℝ)
            - (exampleSurfaceStateRising ℝ).obj.Transform.Position)) = -1
    ∧ (CalculateCollisionTriangle Real.sqrt planeFoot 0 5 (exampleTriangle ℝ)
        (exampleSurfaceStateRising ℝ)).obj.Velocity.Velocity = ⟨0, 0, -1⟩ := by
  have hn : Vec3.normalize Real.sqrt
      (planeFoot (exampleSurfaceStateRising ℝ).obj.Transform.Position (exampleTriangle ℝ)
        - (exampleSurfaceStateRising ℝ).obj.Transform.Position) = ⟨0, 0, -1⟩ :=
    example_surface_normal
  have h := (CalculateCollisionTriangle_impulse_ungated planeFoot 0 5 (exampleTriangle ℝ)
    (exampleSurfaceStateRising ℝ)
    (by simp only [exampleSurfaceStateRising, mkBall]; norm_num)
    example_surface_normal_unit).1
  rw [hn] at h ⊢
  constructor
  · simp [dot, exampleSurfaceStateRising, mkBall]
  · rw [h]
    ext <;> simp [dot, exampleSurfaceStateRising, mkBall]

/-! ## First-touch trajectory recording -/

/-- The time component the sphere-triangle resolver leaves (lines 53-54). -/
theorem CalculateCollisionTriangle_time {F : Type} [LinearOrderedField F] (sqrt : F → F)
    (cp : Vec3 F → Triangle F → Vec3 F) (g : Vec3 F) (now : F) (triangle : Triangle F)
    (s : SurfaceState F) :
    (CalculateCollisionTriangle sqrt cp g now triangle s).time
      = if s.obj.Ball.Path.isEmpty then { LastPoint := now } else s.time :=
  rfl

/-- C14. Trajectory recording is first-touch only: a sphere-triangle `CalculateCollision` call
on a body whose path is not empty leaves the path and `time.LastPoint` as they were; a call on
a body whose path is empty sets `time.LastPoint` to the timer value of the call and leaves the
entry position as the only element of the path. -/
theorem CalculateCollisionTriangle_first_touch_only {F : Type} [LinearOrderedField F]
    (sqrt : F → F) (cp : Vec3 F → Triangle F → Vec3 F) (g : Vec3 F) (now : F)
    (triangle : Triangle F) (s : SurfaceState F) :
    (s.obj.Ball.Path ≠ [] →
      (CalculateCollisionTriangle sqrt cp g now triangle s).obj.Ball.Path = s.obj.Ball.Path
      ∧ (CalculateCollisionTriangle sqrt cp g now triangle s).time.LastPoint
        = s.time.LastPoint)
    ∧ (s.obj.Ball.Path = [] →
      (CalculateCollisionTriangle sqrt cp g now triangle s).time.LastPoint = now
      ∧ (CalculateCollisionTriangle sqrt cp g now triangle s).obj.Ball.Path
        = [s.obj.Transform.Position]) := by
  constructor
  · intro h
    refine ⟨CalculateCollisionTriangle_path_of_ne_nil sqrt cp g now triangle s h, ?_⟩
    rw [CalculateCollisionTriangle_time]
    have he : s.obj.Ball.Path.isEmpty = false := by
      cases hp : s.obj.Ball.Path with
      | nil => exact absurd hp h
      | cons a l => rfl
    rw [he]
    rfl
  · intro h
    refine ⟨?_, CalculateCollisionTriangle_path_of_nil sqrt cp g now triangle s h⟩
    rw [CalculateCollisionTriangle_time, h]
    rfl

/-- C14, witness: a call at time 5 on the ball whose path holds (0,0,2) from time 3 leaves path
and time stamp; a call at time 5 on the example ball, whose path is empty, stamps 5 and records
the entry position (0,0,1). -/
theorem CalculateCollisionTriangle_first_touch_only_witness :
    ((CalculateCollisionTriangle Real.sqrt planeFoot 0 5 (exampleTriangle ℝ)
        (exampleSurfaceStateTouched ℝ)).obj.Ball.Path = [⟨0, 0, 2⟩]
      ∧ (CalculateCollisionTriangle Real.sqrt planeFoot 0 5 (exampleTriangle ℝ)
        (exampleSurfaceStateTouched ℝ)).time.LastPoint = 3)
    ∧ ((CalculateCollisionTriangle Real.sqrt planeFoot 0 5 (exampleTriangle ℝ)
        (exampleSurfaceState ℝ)).time.LastPoint = 5
      ∧ (CalculateCollisionTriangle Real.sqrt planeFoot 0 5 (exampleTriangle ℝ)
        (exampleSurfaceState ℝ)).obj.Ball.Path = [⟨0, 0, 1⟩]) :=
  ⟨(CalculateCollisionTriangle_first_touch_only Real.sqrt planeFoot 0 5 (exampleTriangle ℝ)
      (exampleSurfaceStateTouched ℝ)).1 (List.cons_ne_nil _ _),
    (CalculateCollisionTriangle_first_touch_only Real.sqrt planeFoot 0 5 (exampleTriangle ℝ)
      (exampleSurfaceState ℝ)).2 rfl⟩

/-! ## Swapped invocation of the ball-ball resolver -/

/-- Two velocity components with the same vector are equal. -/
theorem VelocityComponent_eq {F : Type} (a b : VelocityComponent F)
    (h : a.Velocity = b.Velocity) : a = b := by
  cases a
  cases b
  simp only at h
  rw [h]

/-- The ball-ball resolver leaves the velocity of the second object of a pair with
non-negative closing speed as it was. -/
theorem CalculateCollision_velocity_of_separating
    (GetContactNormal : Vec3 ℝ → Vec3 ℝ → Vec3 ℝ) (A B : CollisionObject ℝ)
    (hsep : dot (B.Velocity.Velocity - A.Velocity.Velocity)
      (GetContactNormal A.Transform.Position B.Transform.Position) ≥ 0) :
    (CalculateCollision GetContactNormal A B).2.Velocity.Velocity = B.Velocity.Velocity := by
  rw [CalculateCollision_velocity, if_pos hsep]
  ext <;> simp

/-- After the first call on an approaching pair with elasticities `≥ 0` and a unit normal, the
swapped pair is not approaching: its closing speed along the reversed normal is
`-(elasticityA * elasticityB) * closingSpeed ≥ 0`. -/
theorem closingSpeed_after_first_call (vA vB n : Vec3 ℝ) (eA eB : ℝ)
    (happroach : dot (vB - vA) n < 0) (heA : 0 ≤ eA) (heB : 0 ≤ eB) (hnn : dot n n = 1) :
    dot (vA - (vB - ((1 + eA * eB) * dot (vB - vA) n) * n)) (-n) ≥ 0 := by
  have he : 0 ≤ eA * eB := mul_nonneg heA heB
  have hval : dot (vA - (vB - ((1 + eA * eB) * dot (vB - vA) n) * n)) (-n)
      = -(eA * eB) * dot (vB - vA) n := by
    simp only [dot, sub_x, sub_y, sub_z, smul_x, smul_y, smul_z, neg_x, neg_y, neg_z] at hnn ⊢
    linear_combination (-(1 + eA * eB) * ((vB.x - vA.x) * n.x + (vB.y - vA.y) * n.y
      + (vB.z - vA.z) * n.z)) * hnn
  rw [hval]
  nlinarith

/-- C15, amended. For an approaching pair (closing speed `< 0`) with positive masses,
elasticities in `[0,1]` and a unit contact normal with `n(B, A) = -n(A, B)`, the two calls
`CalculateCollision(A, B)` then `CalculateCollision(B, A)` give a one-sided response: the
velocity of A equals its value before the two calls (the second call finds the closing speed
`-(elasticityA * elasticityB) * closingSpeed ≥ 0` and applies no impulse), while the velocity
of B is `velocityB - (1 + elasticityA * elasticityB) * closingSpeed * n`, which differs from
its value before the calls. -/
theorem CalculateCollisionSwapped_one_sided
    (GetContactNormal : Vec3 ℝ → Vec3 ℝ → Vec3 ℝ) (A B : CollisionObject ℝ)
    (happroach : dot (B.Velocity.Velocity - A.Velocity.Velocity)
      (GetContactNormal A.Transform.Position B.Transform.Position) < 0)
    (hmassA : 0 < A.Ball.Mass) (hmassB : 0 < B.Ball.Mass)
    (helA : 0 ≤ A.Ball.Elasticity) (_helA1 : A.Ball.Elasticity ≤ 1)
    (helB : 0 ≤ B.Ball.Elasticity) (_helB1 : B.Ball.Elasticity ≤ 1)
    (hanti : GetContactNormal B.Transform.Position A.Transform.Position
      = -GetContactNormal A.Transform.Position B.Transform.Position)
    (hunit : length Real.sqrt (GetContactNormal A.Transform.Position B.Transform.Position) = 1) :
    (CalculateCollisionSwapped GetContactNormal A B).1.Velocity = A.Velocity
    ∧ (CalculateCollisionSwapped GetContactNormal A B).2.Velocity.Velocity
      = B.Velocity.Velocity
        - ((1 + A.Ball.Elasticity * B.Ball.Elasticity)
            * dot (B.Velocity.Velocity - A.Velocity.Velocity)
                (GetContactNormal A.Transform.Position B.Transform.Position))
          * GetContactNormal A.Transform.Position B.Transform.Position
    ∧ (CalculateCollisionSwapped GetContactNormal A B).2.Velocity ≠ B.Velocity := by
  have hmass : A.Ball.Mass + B.Ball.Mass ≠ 0 := ne_of_gt (by linarith)
  have hnn : dot (GetContactNormal A.Transform.Position B.Transform.Position)
      (GetContactNormal A.Transform.Position B.Transform.Position) = 1 := by
    have h := length_mul_self (GetContactNormal A.Transform.Position B.Transform.Position)
    rw [hunit] at h
    linarith
  have hfirst := CalculateCollision_velocity_of_approaching GetContactNormal A B hmass happroach
  have hB : (CalculateCollisionSwapped GetContactNormal A B).2.Velocity.Velocity
      = (CalculateCollision GetContactNormal A B).2.Velocity.Velocity := rfl
  have hsep : dot
      ((CalculateCollision GetContactNormal A B).1.Velocity.Velocity
        - (CalculateCollision GetContactNormal A B).2.Velocity.Velocity)
      (GetContactNormal (CalculateCollision GetContactNormal A B).2.Transform.Position
        (CalculateCollision GetContactNormal A B).1.Transform.Position) ≥ 0 := by
    have hpos : GetContactNormal (CalculateCollision GetContactNormal A B).2.Transform.Position
        (CalculateCollision GetContactNormal A B).1.Transform.Position
        = -GetContactNormal A.Transform.Position B.Transform.Position := hanti
    have hA1 : (CalculateCollision GetContactNormal A B).1.Velocity.Velocity
        = A.Velocity.Velocity := rfl
    rw [hpos, hA1, hfirst]
    exact closingSpeed_after_first_call _ _ _ _ _ happroach helA helB hnn
  have hA : (CalculateCollisionSwapped GetContactNormal A B).1.Velocity.Velocity
      = A.Velocity.Velocity :=
    CalculateCollision_velocity_of_separating GetContactNormal
      (CalculateCollision GetContactNormal A B).2 (CalculateCollision GetContactNormal A B).1
      hsep
  refine ⟨VelocityComponent_eq _ _ hA, hB.trans hfirst, ?_⟩
  intro hsame
  have hv : (CalculateCollisionSwapped GetContactNormal A B).2.Velocity.Velocity
      = B.Velocity.Velocity := by rw [hsame]
  rw [hB, hfirst] at hv
  have he : 0 ≤ A.Ball.Elasticity * B.Ball.Elasticity := mul_nonneg helA helB
  have hk : (1 + A.Ball.Elasticity * B.Ball.Elasticity)
      * dot (B.Velocity.Velocity - A.Velocity.Velocity)
          (GetContactNormal A.Transform.Position B.Transform.Position) ≠ 0 :=
    mul_ne_zero (ne_of_gt (by linarith)) (ne_of_lt happroach)
  generalize GetContactNormal A.Transform.Position B.Transform.Position = n at *
  generalize (1 + A.Ball.Elasticity * B.Ball.Elasticity)
    * dot (B.Velocity.Velocity - A.Velocity.Velocity) n = k at *
  have hx := congrArg Vec3.x hv
  have hy := congrArg Vec3.y hv
  have hz := congrArg Vec3.z hv
  simp only [sub_x, sub_y, sub_z, smul_x, smul_y, smul_z] at hx hy hz
  have hnx : n.x = 0 := by
    have h0 : k * n.x = 0 := by linarith
    exact (mul_eq_zero.mp h0).resolve_left hk
  have hny : n.y = 0 := by
    have h0 : k * n.y = 0 := by linarith
    exact (mul_eq_zero.mp h0).resolve_left hk
  have hnz : n.z = 0 := by
    have h0 : k * n.z = 0 := by linarith
    exact (mul_eq_zero.mp h0).resolve_left hk
  simp only [dot, hnx, hny, hnz] at hnn
  norm_num at hnn

/-- The unit normal from sphere B to sphere A of the example is the reverse of the one from A
to B. -/
theorem example_normal_swapped :
    normalFromTo Real.sqrt (exampleB ℝ).Transform.Position (exampleA ℝ).Transform.Position
      = -normalFromTo Real.sqrt (exampleA ℝ).Transform.Position
          (exampleB ℝ).Transform.Position := by
  have h : dot ((exampleA ℝ).Transform.Position - (exampleB ℝ).Transform.Position)
      ((exampleA ℝ).Transform.Position - (exampleB ℝ).Transform.Position)
      = (3 / 2 : ℝ) * (3 / 2) := by
    simp only [dot, exampleA, exampleB, mkBall, sub_x, sub_y, sub_z]
    norm_num
  rw [example_normal]
  unfold normalFromTo Vec3.normalize
  rw [h, Real.sqrt_mul_self (by norm_num)]
  ext <;> simp [exampleA, exampleB, mkBall]

/-- C15, as stated, fails: the example spheres approach (closing speed -1), have masses 1 and
elasticities 1 and an antisymmetric unit contact normal, yet after `CalculateCollision(A, B)`
then `CalculateCollision(B, A)` the velocity of A is the one it had before the two calls, so it
is not true that both velocities differ. -/
theorem CalculateCollisionSwapped_example_not_mutual :
    dot ((exampleB ℝ).Velocity.Velocity - (exampleA ℝ).Velocity.Velocity)
        (normalFromTo Real.sqrt (exampleA ℝ).Transform.Position
          (exampleB ℝ).Transform.Position) < 0
    ∧ normalFromTo Real.sqrt (exampleB ℝ).Transform.Position (exampleA ℝ).Transform.Position
      = -normalFromTo Real.sqrt (exampleA ℝ).Transform.Position
          (exampleB ℝ).Transform.Position
    ∧ length Real.sqrt (normalFromTo Real.sqrt (exampleA ℝ).Transform.Position
        (exampleB ℝ).Transform.Position) = 1
    ∧ ¬ ((CalculateCollisionSwapped (normalFromTo Real.sqrt) (exampleA ℝ)
            (exampleB ℝ)).1.Velocity ≠ (exampleA ℝ).Velocity
        ∧ (CalculateCollisionSwapped (normalFromTo Real.sqrt) (exampleA ℝ)
            (exampleB ℝ)).2.Velocity ≠ (exampleB ℝ).Velocity) := by
  have hcs : dot ((exampleB ℝ).Velocity.Velocity - (exampleA ℝ).Velocity.Velocity)
      (normalFromTo Real.sqrt (exampleA ℝ).Transform.Position
        (exampleB ℝ).Transform.Position) < 0 := by
    rw [example_closingSpeed]
    norm_num
  refine ⟨hcs, example_normal_swapped, example_normal_unit, ?_⟩
  intro hboth
  apply hboth.1
  have hB : (CalculateCollision (normalFromTo Real.sqrt) (exampleA ℝ)
      (exampleB ℝ)).2.Velocity.Velocity = ⟨2, 0, 0⟩ :=
    example_impulse (normalFromTo Real.sqrt) example_normal
  have hn : normalFromTo Real.sqrt
      (CalculateCollision (normalFromTo Real.sqrt) (exampleA ℝ) (exampleB ℝ)).2.Transform.Position
      (CalculateCollision (normalFromTo Real.sqrt) (exampleA ℝ) (exampleB ℝ)).1.Transform.Position
      = ⟨-1, 0, 0⟩ := by
    have h := example_normal_swapped
    rw [example_normal] at h
    rw [show normalFromTo Real.sqrt
      (CalculateCollision (normalFromTo Real.sqrt) (exampleA ℝ) (exampleB ℝ)).2.Transform.Position
      (CalculateCollision (normalFromTo Real.sqrt) (exampleA ℝ) (exampleB ℝ)).1.Transform.Position
      = normalFromTo Real.sqrt (exampleB ℝ).Transform.Position
          (exampleA ℝ).Transform.Position from rfl, h]
    ext <;> simp
  apply VelocityComponent_eq
  apply CalculateCollision_velocity_of_separating
  rw [hn, hB]
  simp only [dot, sub_x, sub_y, sub_z]
  have hA1 : (CalculateCollision (normalFromTo Real.sqrt) (exampleA ℝ)
      (exampleB ℝ)).1.Velocity.Velocity = ⟨1, 0, 0⟩ := rfl
  rw [hA1]
  norm_num

/-- C15, witness of the amended statement: on the example spheres the swapped invocation
leaves the velocity (1,0,0) of A and changes the velocity of B. -/
theorem CalculateCollisionSwapped_one_sided_witness :
    (CalculateCollisionSwapped (normalFromTo Real.sqrt) (exampleA ℝ) (exampleB ℝ)).1.Velocity
      = (exampleA ℝ).Velocity
    ∧ (CalculateCollisionSwapped (normalFromTo Real.sqrt) (exampleA ℝ) (exampleB ℝ)).2.Velocity
      ≠ (exampleB ℝ).Velocity :=
  have h := CalculateCollisionSwapped_one_sided (normalFromTo Real.sqrt) (exampleA ℝ)
    (exampleB ℝ) (by rw [example_closingSpeed]; norm_num)
    (by simp only [exampleA, mkBall]; norm_num) (by simp only [exampleB, mkBall]; norm_num)
    (by simp only [exampleA, mkBall]; norm_num) (by simp only [exampleA, mkBall]; norm_num)
    (by simp only [exampleB, mkBall]; norm_num) (by simp only [exampleB, mkBall]; norm_num)
    example_normal_swapped example_normal_unit
  ⟨h.1, h.2.2⟩

/-! ## When the friction output is written -/

/-- C16. Friction output is written only at non-zero speed: when the velocity the
sphere-triangle `CalculateCollision` leaves in the object is the zero vector, the friction
output parameter keeps the value the caller passed in; when that velocity is not zero, the
friction output is `-normalize(velocity') * (FrictionConstant * mass)`. -/
theorem CalculateCollisionTriangle_friction_only_when_moving
    (cp : Vec3 ℝ → Triangle ℝ → Vec3 ℝ) (g : Vec3 ℝ) (now : ℝ) (triangle : Triangle ℝ)
    (s : SurfaceState ℝ) :
    ((CalculateCollisionTriangle Real.sqrt cp g now triangle s).obj.Velocity.Velocity = 0 →
      (CalculateCollisionTriangle Real.sqrt cp g now triangle s).friction = s.friction)
    ∧ ((CalculateCollisionTriangle Real.sqrt cp g now triangle s).obj.Velocity.Velocity ≠ 0 →
      (CalculateCollisionTriangle Real.sqrt cp g now triangle s).friction
        = -Vec3.normalize Real.sqrt
            (CalculateCollisionTriangle Real.sqrt cp g now triangle s).obj.Velocity.Velocity
          * (triangle.FrictionConstant * s.obj.Ball.Mass)) := by
  constructor
  · intro hzero
    rw [CalculateCollisionTriangle_friction, hzero]
    have hlen : ¬ (length Real.sqrt (0 : Vec3 ℝ) > 0) := by
      simp [length, dot]
    rw [if_neg hlen]
  · intro hmoving
    rw [CalculateCollisionTriangle_friction, if_pos (length_pos hmoving)]

/-- The example ball at rest leaves the surface resolver at rest. -/
theorem example_at_rest (g : Vec3 ℝ) (now : ℝ) :
    (CalculateCollisionTriangle Real.sqrt planeFoot g now (exampleTriangle ℝ)
        (exampleSurfaceStateAtRest ℝ)).obj.Velocity.Velocity = 0 := by
  rw [CalculateCollisionTriangle_velocity]
  generalize Vec3.normalize Real.sqrt
    (planeFoot (exampleSurfaceStateAtRest ℝ).obj.Transform.Position (exampleTriangle ℝ)
      - (exampleSurfaceStateAtRest ℝ).obj.Transform.Position) = n
  ext <;> simp [dot, exampleSurfaceStateAtRest, mkBall]

/-- C16, witness: the example ball at rest leaves the value (7,7,7) the caller passed in the
friction output; the falling example ball, which leaves with velocity (0,0,1), gets the
friction output (0,0,-1/2). -/
theorem CalculateCollisionTriangle_friction_only_when_moving_witness :
    (CalculateCollisionTriangle Real.sqrt planeFoot 0 5 (exampleTriangle ℝ)
        (exampleSurfaceStateAtRest ℝ)).friction = ⟨7, 7, 7⟩
    ∧ (CalculateCollisionTriangle Real.sqrt planeFoot 0 5 (exampleTriangle ℝ)
        (exampleSurfaceState ℝ)).friction = ⟨0, 0, -(1 / 2)⟩ := by
  constructor
  · exact (CalculateCollisionTriangle_friction_only_when_moving planeFoot 0 5
      (exampleTriangle ℝ) (exampleSurfaceStateAtRest ℝ)).1 (example_at_rest 0 5)
  · have hne : (CalculateCollisionTriangle Real.sqrt planeFoot 0 5 (exampleTriangle ℝ)
        (exampleSurfaceState ℝ)).obj.Velocity.Velocity ≠ 0 := by
      rw [example_bounce]
      intro h
      have hz : (1 : ℝ) = 0 := congrArg Vec3.z h
      norm_num at hz
    rw [(CalculateCollisionTriangle_friction_only_when_moving planeFoot 0 5
      (exampleTriangle ℝ) (exampleSurfaceState ℝ)).2 hne, example_bounce]
    have hs : Real.sqrt (dot (⟨0, 0, 1⟩ : Vec3 ℝ) ⟨0, 0, 1⟩) = 1 := by
      simp [dot]
    simp only [Vec3.normalize, hs]
    ext <;> simp [exampleTriangle, exampleSurfaceState, mkBall]

/-! ## Exact characterisation of the resting correction -/

/-- The signed distance of `p + normalize(N) * (-d + r)` from the plane through `A` with
normal `N ≠ 0`, where `d = dot(p - A, N)`. -/
theorem signed_distance_after_correction (p A N : Vec3 ℝ) (r : ℝ) (hN : N ≠ 0) :
    dot (p + Vec3.normalize Real.sqrt N * (-(dot (p - A) N) + r) - A)
        (Vec3.normalize Real.sqrt N)
      = r + dot (p - A) N / length Real.sqrt N - dot (p - A) N := by
  have hL : 0 < Real.sqrt (dot N N) := length_pos hN
  have hLL : Real.sqrt (dot N N) * Real.sqrt (dot N N) = dot N N := length_mul_self N
  simp only [Vec3.normalize, length]
  generalize Real.sqrt (dot N N) = L at hL hLL
  have hL0 : L ≠ 0 := ne_of_gt hL
  simp only [dot, sub_x, sub_y, sub_z, add_x, add_y, add_z, mul_x, mul_y, mul_z] at hLL ⊢
  have h2 : (1 / L) * (1 / L) * (N.x * N.x + N.y * N.y + N.z * N.z) = 1 := by
    rw [← hLL]
    field_simp
  linear_combination (r - ((p.x - A.x) * N.x + (p.y - A.y) * N.y + (p.z - A.z) * N.z)) * h2

/-- C17. Exact characterisation of the resting correction: for a triangle with face normal
`N ≠ 0` and anchor `A`, and `d = dot(position - A, N)` taken with the un-normalised `N`, the
sphere-triangle `CalculateCollision` leaves `position + normalize(N) * (radius - d)` in the
transform; every triangle with the same `A` and `N` gives the same position, whatever its
corners `B` and `C`, its friction constant, the closest-point query, the gravity constant and
the clock; the signed distance `dot(position' - A, normalize(N))` is `radius + d / |N| - d`,
and it equals `radius` exactly when `|N| = 1` or `d = 0`. -/
theorem CalculateCollisionTriangle_resting_characterisation
    (cp : Vec3 ℝ → Triangle ℝ → Vec3 ℝ) (g : Vec3 ℝ) (now : ℝ) (triangle : Triangle ℝ)
    (s : SurfaceState ℝ) (hN : triangle.N ≠ 0) :
    (CalculateCollisionTriangle Real.sqrt cp g now triangle s).obj.Transform.Position
      = s.obj.Transform.Position + Vec3.normalize Real.sqrt triangle.N
          * (s.obj.Ball.Radius - dot (s.obj.Transform.Position - triangle.A) triangle.N)
    ∧ (∀ (cp2 : Vec3 ℝ → Triangle ℝ → Vec3 ℝ) (g2 : Vec3 ℝ) (now2 : ℝ) (triangle2 : Triangle ℝ),
        triangle2.A = triangle.A → triangle2.N = triangle.N →
        (CalculateCollisionTriangle Real.sqrt cp2 g2 now2 triangle2 s).obj.Transform.Position
          = (CalculateCollisionTriangle Real.sqrt cp g now triangle s).obj.Transform.Position)
    ∧ dot ((CalculateCollisionTriangle Real.sqrt cp g now triangle s).obj.Transform.Position
          - triangle.A) (Vec3.normalize Real.sqrt triangle.N)
      = s.obj.Ball.Radius
        + dot (s.obj.Transform.Position - triangle.A) triangle.N / length Real.sqrt triangle.N
        - dot (s.obj.Transform.Position - triangle.A) triangle.N
    ∧ (dot ((CalculateCollisionTriangle Real.sqrt cp g now triangle s).obj.Transform.Position
          - triangle.A) (Vec3.normalize Real.sqrt triangle.N) = s.obj.Ball.Radius
      ↔ length Real.sqrt triangle.N = 1
        ∨ dot (s.obj.Transform.Position - triangle.A) triangle.N = 0) := by
  have hdist := signed_distance_after_correction s.obj.Transform.Position triangle.A
    triangle.N s.obj.Ball.Radius hN
  have hL : 0 < length Real.sqrt triangle.N := length_pos hN
  refine ⟨?_, ?_, ?_, ?_⟩
  · rw [CalculateCollisionTriangle_position, neg_add_eq_sub]
  · intro cp2 g2 now2 triangle2 hA hNeq
    rw [CalculateCollisionTriangle_position, CalculateCollisionTriangle_position, hA, hNeq]
  · rw [CalculateCollisionTriangle_position]
    exact hdist
  · rw [CalculateCollisionTriangle_position, hdist]
    generalize dot (s.obj.Transform.Position - triangle.A) triangle.N = d
    generalize length Real.sqrt triangle.N = L at hL
    have hL0 : L ≠ 0 := ne_of_gt hL
    constructor
    · intro h
      have hd : d * (L - 1) = 0 := by
        have h1 : d / L = d := by linarith
        rw [div_eq_iff hL0] at h1
        linarith
      rcases mul_eq_zero.mp hd with h0 | h1
      · exact Or.inr h0
      · exact Or.inl (by linarith)
    · rintro (h1 | h0)
      · rw [h1]
        simp
      · rw [h0]
        simp

/-- C17, witness: the example facet has the face normal (0,0,2) and the example ball of radius
1 has `d = 2`; the signed distance after the call is `1 + 2 / 2 - 2`. -/
theorem CalculateCollisionTriangle_resting_characterisation_witness :
    dot ((CalculateCollisionTriangle Real.sqrt planeFoot 0 5 (exampleTriangle ℝ)
          (exampleSurfaceState ℝ)).obj.Transform.Position - (exampleTriangle ℝ).A)
        (Vec3.normalize Real.sqrt (exampleTriangle ℝ).N)
      = (exampleSurfaceState ℝ).obj.Ball.Radius
        + dot ((exampleSurfaceState ℝ).obj.Transform.Position - (exampleTriangle ℝ).A)
            (exampleTriangle ℝ).N / length Real.sqrt (exampleTriangle ℝ).N
        - dot ((exampleSurfaceState ℝ).obj.Transform.Position - (exampleTriangle ℝ).A)
            (exampleTriangle ℝ).N :=
  (CalculateCollisionTriangle_resting_characterisation planeFoot 0 5 (exampleTriangle ℝ)
    (exampleSurfaceState ℝ)
    (by
      intro h
      have hz : (2 : ℝ) = 0 := congrArg Vec3.z h
      norm_num at hz)).2.2.1

/-! ## Speed after the surface bounce -/

/-- The squared length of `v - ((1 + e) * dot(v, n)) * n` for a unit vector `n`. -/
theorem dot_self_after_bounce (v n : Vec3 ℝ) (e : ℝ) (hnn : dot n n = 1) :
    dot (v - ((1 + e) * dot v n) * n) (v - ((1 + e) * dot v n) * n)
      = dot v v - (1 - e * e) * (dot v n * dot v n) := by
  simp only [dot, sub_x, sub_y, sub_z, smul_x, smul_y, smul_z] at hnn ⊢
  linear_combination ((1 + e) * (1 + e) * ((v.x * n.x + v.y * n.y + v.z * n.z)
    * (v.x * n.x + v.y * n.y + v.z * n.z))) * hnn

/-- The component of `v - ((1 + e) * dot(v, n)) * n` along a unit vector `n`. -/
theorem dot_normal_after_bounce (v n : Vec3 ℝ) (e : ℝ) (hnn : dot n n = 1) :
    dot (v - ((1 + e) * dot v n) * n) n = -e * dot v n := by
  simp only [dot, sub_x, sub_y, sub_z, smul_x, smul_y, smul_z] at hnn ⊢
  linear_combination (-(1 + e) * (v.x * n.x + v.y * n.y + v.z * n.z)) * hnn

/-- C18. The surface bounce never adds speed: for a ball whose mass is not zero, with
elasticity in `[0,1]` and a contact normal `n = normalize(closestPoint - position)` of length
1, the velocity after the sphere-triangle `CalculateCollision` is not longer than the velocity
before it, and as long when the elasticity is 1; its component along `n` is
`-elasticity * dot(velocity, n)`, and its tangential part
`velocity' - dot(velocity', n) * n` is that of the velocity before the call. -/
theorem CalculateCollisionTriangle_bounce_no_gain
    (cp : Vec3 ℝ → Triangle ℝ → Vec3 ℝ) (g : Vec3 ℝ) (now : ℝ) (triangle : Triangle ℝ)
    (s : SurfaceState ℝ) (hmass : s.obj.Ball.Mass ≠ 0)
    (hel0 : 0 ≤ s.obj.Ball.Elasticity) (hel1 : s.obj.Ball.Elasticity ≤ 1)
    (hunit : length Real.sqrt (Vec3.normalize Real.sqrt
      (cp s.obj.Transform.Position triangle - s.obj.Transform.Position)) = 1) :
    length Real.sqrt (CalculateCollisionTriangle Real.sqrt cp g now triangle s).obj.Velocity.Velocity
      ≤ length Real.sqrt s.obj.Velocity.Velocity
    ∧ (s.obj.Ball.Elasticity = 1 →
      length Real.sqrt
          (CalculateCollisionTriangle Real.sqrt cp g now triangle s).obj.Velocity.Velocity
        = length Real.sqrt s.obj.Velocity.Velocity)
    ∧ dot (CalculateCollisionTriangle Real.sqrt cp g now triangle s).obj.Velocity.Velocity
        (Vec3.normalize Real.sqrt
          (cp s.obj.Transform.Position triangle - s.obj.Transform.Position))
      = -s.obj.Ball.Elasticity
        * dot s.obj.Velocity.Velocity
            (Vec3.normalize Real.sqrt
              (cp s.obj.Transform.Position triangle - s.obj.Transform.Position))
    ∧ (CalculateCollisionTriangle Real.sqrt cp g now triangle s).obj.Velocity.Velocity
        - dot (CalculateCollisionTriangle Real.sqrt cp g now triangle s).obj.Velocity.Velocity
            (Vec3.normalize Real.sqrt
              (cp s.obj.Transform.Position triangle - s.obj.Transform.Position))
          * Vec3.normalize Real.sqrt
              (cp s.obj.Transform.Position triangle - s.obj.Transform.Position)
      = s.obj.Velocity.Velocity
        - dot s.obj.Velocity.Velocity
            (Vec3.normalize Real.sqrt
              (cp s.obj.Transform.Position triangle - s.obj.Transform.Position))
          * Vec3.normalize Real.sqrt
              (cp s.obj.Transform.Position triangle - s.obj.Transform.Position) := by
  have hnn : dot (Vec3.normalize Real.sqrt
        (cp s.obj.Transform.Position triangle - s.obj.Transform.Position))
      (Vec3.normalize Real.sqrt
        (cp s.obj.Transform.Position triangle - s.obj.Transform.Position)) = 1 := by
    have h := length_mul_self (Vec3.normalize Real.sqrt
      (cp s.obj.Transform.Position triangle - s.obj.Transform.Position))
    rw [hunit] at h
    linarith
  rw [CalculateCollisionTriangle_velocity_of_mass cp g now triangle s hmass]
  generalize Vec3.normalize Real.sqrt
    (cp s.obj.Transform.Position triangle - s.obj.Transform.Position) = n at hnn
  generalize s.obj.Velocity.Velocity = v
  generalize s.obj.Ball.Elasticity = e at hel0 hel1
  have hsq := dot_self_after_bounce v n e hnn
  have hdn := dot_normal_after_bounce v n e hnn
  refine ⟨?_, ?_, hdn, ?_⟩
  · unfold length
    apply Real.sqrt_le_sqrt
    rw [hsq]
    have h1 : 0 ≤ (1 - e * e) * (dot v n * dot v n) :=
      mul_nonneg (by nlinarith) (mul_self_nonneg _)
    linarith
  · intro he
    unfold length
    rw [hsq, he]
    simp
  · rw [hdn]
    ext <;> simp only [sub_x, sub_y, sub_z, smul_x, smul_y, smul_z] <;> ring

/-- C18, witness: the falling example ball (elasticity 1, velocity (0,0,-1), contact normal
(0,0,-1)) leaves the resolver with a velocity as long as before and with the normal component
reversed. -/
theorem CalculateCollisionTriangle_bounce_no_gain_witness :
    length Real.sqrt (CalculateCollisionTriangle Real.sqrt planeFoot 0 5 (exampleTriangle ℝ)
        (exampleSurfaceState ℝ)).obj.Velocity.Velocity
      ≤ length Real.sqrt (exampleSurfaceState ℝ).obj.Velocity.Velocity
    ∧ dot (CalculateCollisionTriangle Real.sqrt planeFoot 0 5 (exampleTriangle ℝ)
          (exampleSurfaceState ℝ)).obj.Velocity.Velocity
        (Vec3.normalize Real.sqrt
          (planeFoot (exampleSurfaceState ℝ).obj.Transform.Position (exampleTriangle ℝ)
            - (exampleSurfaceState ℝ).obj.Transform.Position))
      = -(exampleSurfaceState ℝ).obj.Ball.Elasticity
        * dot (exampleSurfaceState ℝ).obj.Velocity.Velocity
            (Vec3.normalize Real.sqrt
              (planeFoot (exampleSurfaceState ℝ).obj.Transform.Position (exampleTriangle ℝ)
                - (exampleSurfaceState ℝ).obj.Transform.Position)) :=
  have h := CalculateCollisionTriangle_bounce_no_gain planeFoot 0 5 (exampleTriangle ℝ)
    (exampleSurfaceState ℝ)
    (by simp only [exampleSurfaceState, mkBall]; norm_num)
    (by simp only [exampleSurfaceState, mkBall]; norm_num)
    (by simp only [exampleSurfaceState, mkBall]; norm_num)
    example_surface_normal_unit
  ⟨h.1, h.2.2.1⟩

end Simulate

end FLOOF
